import Mathlib

/-!
Verification of the SDN access-control application (`lab6_20211049.py`).

The Python source is shallowly embedded below.  Pure data classes become
structures, Python dicts become association lists (`List (String × β)` with
`List.lookup`), and the Floodlight REST controller becomes an explicit
environment (`Controller`) recording the raw outcome of each transport
exchange.  Functions that in Python may raise an uncaught exception
return `Except PyErr _`; every controller interaction performed by an
operation is recorded in an explicit trace of `NetCall`s so that claims
about "how many flow pushes occurred" can be stated precisely.
-/

namespace SDN

/-- Python's `str.upper()` over the ASCII domain of this application
(protocol names and hexadecimal MAC addresses), embedded per character. -/
def pyUpper (s : String) : String :=
  ⟨s.data.map Char.toUpper⟩

/-! ## Data model (classes `Alumno`, `Servicio`, `Servidor`, `ServidorPermitido`, `Curso`, `Conexion`) -/

/-- `class Alumno`: the constructor normalizes the MAC address to upper case
(`self.mac = mac.upper()`), hence the smart constructor `mkAlumno`. -/
structure Alumno where
  nombre : String
  codigo : String
  mac : String
deriving DecidableEq, Repr

/-- `Alumno.__init__`: stores `mac.upper()`. -/
def mkAlumno (nombre codigo mac : String) : Alumno :=
  ⟨nombre, codigo, pyUpper mac⟩

/-- `class Servicio`: constructor upper-cases the protocol. -/
structure Servicio where
  nombre : String
  protocolo : String
  puerto : Nat
deriving DecidableEq, Repr

/-- `Servicio.__init__`: stores `protocolo.upper()`. -/
def mkServicio (nombre protocolo : String) (puerto : Nat) : Servicio :=
  ⟨nombre, pyUpper protocolo, puerto⟩

/-- `class Servidor`. -/
structure Servidor where
  nombre : String
  ip : String
  servicios : List Servicio
deriving DecidableEq, Repr

/-- `Servidor.obtener_servicio`: linear scan returning the first service with
the requested name, else `None`. -/
def Servidor.obtener_servicio (s : Servidor) (nombre_servicio : String) : Option Servicio :=
  s.servicios.find? (fun servicio => servicio.nombre == nombre_servicio)

/-- `class ServidorPermitido`: an allow-list binding inside a course. -/
structure ServidorPermitido where
  nombre : String
  servicios_permitidos : List String
deriving DecidableEq, Repr

/-- `class Curso`. -/
structure Curso where
  codigo : String
  nombre : String
  estado : String
  alumnos : List String
  servidores : List ServidorPermitido
deriving DecidableEq, Repr

/-- `Curso.alumno_tiene_acceso_servicio`: the student must be enrolled, the
course state must be `"DICTANDO"`, and the scan over `self.servidores`
returns on the FIRST binding whose name matches `nombre_servidor`, testing
membership of `nombre_servicio` in that binding's permitted list. -/
def Curso.alumno_tiene_acceso_servicio (c : Curso)
    (codigo_alumno nombre_servidor nombre_servicio : String) : Bool :=
  if ¬ c.alumnos.contains codigo_alumno then false
  else if c.estado != "DICTANDO" then false
  else
    match c.servidores.find? (fun servidor => servidor.nombre == nombre_servidor) with
    | some servidor => servidor.servicios_permitidos.contains nombre_servicio
    | none => false

/-- `class Conexion`: `activa` is set to `True` by the constructor. -/
structure Conexion where
  handler : String
  codigo_alumno : String
  nombre_servidor : String
  nombre_servicio : String
  activa : Bool
deriving DecidableEq, Repr

/-! ## Controller environment (class `FloodlightController` and the REST transport)

Each REST exchange either completes (`.ok`) or ends in a
`requests.exceptions.RequestException` (transport error / non-2xx status),
which the methods of `FloodlightController` catch, turning the outcome into
a plain value (`[]` for queries, `False` for push/delete). -/

/-- Outcome of one raw HTTP exchange: either a parsed payload or a caught
`RequestException`. -/
inductive TransportErr where
  | requestException
deriving DecidableEq, Repr

/-- A device attachment point as reported by `GET /wm/device/`
(`switchDPID` and `port` fields of an `attachmentPoint` entry). -/
structure APRecord where
  switchDPID : String
  port : Nat
deriving DecidableEq, Repr

/-- One device record of the `GET /wm/device/` payload.  The `mac` and
`attachmentPoint` keys may be absent (`none`) and their lists may be empty,
exactly the shapes `get_attachment_point` probes for. -/
structure Device where
  mac : Option (List String)
  attachmentPoint : Option (List APRecord)
deriving DecidableEq, Repr

/-- A static flow entry is a JSON object of string fields; embedded as an
insertion-ordered association list. -/
abbrev FlowEntry := List (String × String)

/-- The controller environment: the raw result of each transport exchange,
fixed per environment (the tests instantiate it concretely). -/
structure Controller where
  rawDevices : Except TransportErr (List Device)
  rawPush : String → FlowEntry → Except TransportErr Unit
  rawDelete : String → String → Except TransportErr Unit

/-- One observable controller interaction, for traces. -/
inductive NetCall where
  | getDevices
  | getRoute (src dst : String)
  | pushFlow (dpid : String) (flow : FlowEntry)
  | deleteFlow (dpid : String) (flowName : String)
deriving DecidableEq, Repr

/-- `FloodlightController.get_devices`: returns the parsed payload, or `[]`
when the exchange raised a `RequestException` (caught). -/
def get_devices (ctrl : Controller) : List Device :=
  match ctrl.rawDevices with
  | .ok devs => devs
  | .error _ => []

/-- `FloodlightController.push_flow`: `True` on success, `False` when the
exchange raised (caught). -/
def push_flow (ctrl : Controller) (dpid : String) (flow_entry : FlowEntry) : Bool :=
  match ctrl.rawPush dpid flow_entry with
  | .ok _ => true
  | .error _ => false

/-- `FloodlightController.delete_flow`: `True` on success, `False` when the
exchange raised (caught). -/
def delete_flow (ctrl : Controller) (dpid : String) (flow_name : String) : Bool :=
  match ctrl.rawDelete dpid flow_name with
  | .ok _ => true
  | .error _ => false

/-! ## Attachment resolution (`get_attachment_point`) -/

/-- A Python exception that escapes uncaught. -/
inductive PyErr where
  | indexError
  | keyError
deriving DecidableEq, Repr

/-- MAC normalization as performed inline by `get_attachment_point`:
`mac_address.replace(":", "").replace("-", "").upper()` — deleting every
colon, then every dash, then upper-casing each remaining character. -/
def normalizeMac (s : String) : String :=
  ⟨((s.data.filter (fun c => c != ':')).filter (fun c => c != '-')).map Char.toUpper⟩

/-- The scanning loop of `get_attachment_point`.  For each device carrying a
`mac` key, Python evaluates `device['mac'][0]`, which raises `IndexError`
when the list is empty.  On a normalized match, the first attachment point
is returned when the `attachmentPoint` key is present and non-empty;
otherwise the loop continues with the next device. -/
def gapScan (mac_normalized : String) : List Device → Except PyErr (Option (String × Nat))
  | [] => .ok none
  | device :: rest =>
    match device.mac with
    | none => gapScan mac_normalized rest
    | some [] => .error .indexError
    | some (m :: _) =>
      if normalizeMac m == mac_normalized then
        match device.attachmentPoint with
        | some (ap :: _) => .ok (some (ap.switchDPID, ap.port))
        | _ => gapScan mac_normalized rest
      else gapScan mac_normalized rest

/-- `get_attachment_point(controller, mac_address)`: one `GET /wm/device/`
call, then the linear scan.  Returns the result together with the trace of
controller calls made. -/
def get_attachment_point (ctrl : Controller) (mac_address : String) :
    Except PyErr (Option (String × Nat)) × List NetCall :=
  (gapScan (normalizeMac mac_address) (get_devices ctrl), [.getDevices])

/-! ## Flow compilation (`build_route`) and teardown (`delete_route`) -/

/-- The `arp_flow` dict built by `build_route` (ARP requests toward the
server's IP, flooded). -/
def arp_request_flow (handler dpid : String) (port : Nat) (servidor : Servidor) : FlowEntry :=
  [("switch", dpid),
   ("name", handler ++ "_arp_request"),
   ("cookie", "0"),
   ("priority", "32768"),
   ("in_port", toString port),
   ("eth_type", "0x0806"),
   ("arp_tpa", servidor.ip),
   ("active", "true"),
   ("actions", "output=flood")]

/-- The `arp_reply_flow` dict built by `build_route`. -/
def arp_reply_flow (handler dpid : String) (port : Nat) (alumno : Alumno)
    (servidor : Servidor) : FlowEntry :=
  [("switch", dpid),
   ("name", handler ++ "_arp_reply"),
   ("cookie", "0"),
   ("priority", "32768"),
   ("eth_type", "0x0806"),
   ("arp_spa", servidor.ip),
   ("arp_tha", alumno.mac),
   ("active", "true"),
   ("actions", "output=" ++ toString port)]

/-- The `outbound_flow` dict of `build_route`, after the comprehension that
removes every field whose value is the empty string (this drops the unused
`tcp_dst`/`udp_dst` field of the non-matching protocol). -/
def outbound_flow (handler dpid : String) (port : Nat) (alumno : Alumno)
    (servidor : Servidor) (servicio : Servicio) : FlowEntry :=
  [("switch", dpid),
   ("name", handler ++ "_outbound"),
   ("cookie", "0"),
   ("priority", "32768"),
   ("in_port", toString port),
   ("eth_src", alumno.mac),
   ("eth_type", "0x0800"),
   ("ipv4_dst", servidor.ip),
   ("ip_proto", if servicio.protocolo == "TCP" then "6" else "17"),
   ("tcp_dst", if servicio.protocolo == "TCP" then toString servicio.puerto else ""),
   ("udp_dst", if servicio.protocolo == "UDP" then toString servicio.puerto else ""),
   ("active", "true"),
   ("actions", "output=flood")].filter (fun kv => kv.2 != "")

/-- The `inbound_flow` dict of `build_route`, after the same empty-field
filter. -/
def inbound_flow (handler dpid : String) (port : Nat) (alumno : Alumno)
    (servidor : Servidor) (servicio : Servicio) : FlowEntry :=
  [("switch", dpid),
   ("name", handler ++ "_inbound"),
   ("cookie", "0"),
   ("priority", "32768"),
   ("eth_dst", alumno.mac),
   ("eth_type", "0x0800"),
   ("ipv4_src", servidor.ip),
   ("ip_proto", if servicio.protocolo == "TCP" then "6" else "17"),
   ("tcp_src", if servicio.protocolo == "TCP" then toString servicio.puerto else ""),
   ("udp_src", if servicio.protocolo == "UDP" then toString servicio.puerto else ""),
   ("active", "true"),
   ("actions", "output=" ++ toString port)].filter (fun kv => kv.2 != "")

/-- `build_route(controller, alumno, servidor, servicio, handler)`.
Faithful to the source's order of effects: it resolves the attachment point
of the student's MAC, then of the literal MAC `"dummy"` (both before
checking `src_ap`), returns `False` when the student has no attachment
point, optionally issues a route query, then pushes the four flows
unconditionally (a failed push only clears `success`, pushing continues).
The result is paired with the trace of controller calls. -/
def build_route (ctrl : Controller) (alumno : Alumno) (servidor : Servidor)
    (servicio : Servicio) (handler : String) : Except PyErr Bool × List NetCall :=
  let (r1, t1) := get_attachment_point ctrl alumno.mac
  match r1 with
  | .error e => (.error e, t1)
  | .ok src_ap =>
    let (r2, t2) := get_attachment_point ctrl "dummy"
    match r2 with
    | .error e => (.error e, t1 ++ t2)
    | .ok dst_ap =>
      match src_ap with
      | none => (.ok false, t1 ++ t2)
      | some sap =>
        let routeCalls : List NetCall :=
          match dst_ap with
          | some dap => if sap.1 == dap.1 then [] else [.getRoute sap.1 dap.1]
          | none => [.getRoute sap.1 sap.1]
        let f1 := arp_request_flow handler sap.1 sap.2 servidor
        let ok1 := push_flow ctrl sap.1 f1
        let f2 := arp_reply_flow handler sap.1 sap.2 alumno servidor
        let ok2 := push_flow ctrl sap.1 f2
        let f3 := outbound_flow handler sap.1 sap.2 alumno servidor servicio
        let ok3 := push_flow ctrl sap.1 f3
        let f4 := inbound_flow handler sap.1 sap.2 alumno servidor servicio
        let ok4 := push_flow ctrl sap.1 f4
        (.ok (ok1 && ok2 && ok3 && ok4),
         t1 ++ t2 ++ routeCalls ++
           [.pushFlow sap.1 f1, .pushFlow sap.1 f2, .pushFlow sap.1 f3, .pushFlow sap.1 f4])

/-- `delete_route(controller, handler, dpid)`: attempts to delete the four
flow names derived from the handler, in order, even after a failure;
returns `True` only when every delete succeeded. -/
def delete_route (ctrl : Controller) (handler dpid : String) : Bool × List NetCall :=
  let names := [handler ++ "_arp_request", handler ++ "_arp_reply",
                handler ++ "_outbound", handler ++ "_inbound"]
  (names.all (fun n => delete_flow ctrl dpid n),
   names.map (fun n => NetCall.deleteFlow dpid n))

/-! ## The application state (`class SDNApplication`) -/

/-- Python-dict insertion: an existing key keeps its position and gets the
new value, a fresh key is appended at the end. -/
def dictInsert (l : List (String × Conexion)) (k : String) (v : Conexion) :
    List (String × Conexion) :=
  if (l.lookup k).isSome then
    l.map (fun p => if p.1 == k then (k, v) else p)
  else l ++ [(k, v)]

/-- The mutable state of `SDNApplication`: the four registries (Python
dicts, embedded as insertion-ordered association lists) and the handler
counter (initialized to 1 by the constructor). -/
structure SDNApplication where
  alumnos : List (String × Alumno)
  cursos : List (String × Curso)
  servidores : List (String × Servidor)
  conexiones : List (String × Conexion)
  connection_counter : Nat
deriving Repr

/-- `SDNApplication.verificar_autorizacion`: scans all courses and returns
`True` on the first one granting access; pure, no state is changed. -/
def SDNApplication.verificar_autorizacion (app : SDNApplication)
    (codigo_alumno nombre_servidor nombre_servicio : String) : Bool :=
  app.cursos.any (fun kc =>
    kc.2.alumno_tiene_acceso_servicio codigo_alumno nombre_servidor nombre_servicio)

/-- The Python format `f"conn_{n:04d}"` pads the decimal digits of `n` with
leading zeros up to width 4. -/
def pad4 (n : Nat) : String :=
  let s := Nat.repr n
  if s.length < 4 then ⟨List.replicate (4 - s.length) '0'⟩ ++ s else s

/-- The handler string generated by `crear_conexion`. -/
def mkHandler (n : Nat) : String :=
  "conn_" ++ pad4 n

/-- `SDNApplication.crear_conexion`: validate the three entities (fail with
`None`, no controller call), check authorization (fail with `None`, no
controller call), generate the handler and increment the counter, run
`build_route`, and only on full success record the `Conexion`.  The
returned triple is (result or uncaught exception, final state, trace). -/
def SDNApplication.crear_conexion (app : SDNApplication) (ctrl : Controller)
    (codigo_alumno nombre_servidor nombre_servicio : String) :
    Except PyErr (Option String) × SDNApplication × List NetCall :=
  match app.alumnos.lookup codigo_alumno with
  | none => (.ok none, app, [])
  | some alumno =>
    match app.servidores.lookup nombre_servidor with
    | none => (.ok none, app, [])
    | some servidor =>
      match servidor.obtener_servicio nombre_servicio with
      | none => (.ok none, app, [])
      | some servicio =>
        if app.verificar_autorizacion codigo_alumno nombre_servidor nombre_servicio then
          let handler := mkHandler app.connection_counter
          let app1 := { app with connection_counter := app.connection_counter + 1 }
          let (r, t) := build_route ctrl alumno servidor servicio handler
          match r with
          | .error e => (.error e, app1, t)
          | .ok true =>
            let cx := Conexion.mk handler codigo_alumno nombre_servidor nombre_servicio true
            (.ok (some handler),
             { app1 with conexiones := dictInsert app1.conexiones handler cx }, t)
          | .ok false => (.ok none, app1, t)
        else (.ok none, app, [])

/-- `SDNApplication.eliminar_conexion`: unknown handler fails immediately
with `False`; `self.alumnos[conexion.codigo_alumno]` raises `KeyError` when
the student is gone; failed attachment resolution or any failed delete
leaves the record in place and returns `False`; on full success the record
is removed (`del self.conexiones[handler]`). -/
def SDNApplication.eliminar_conexion (app : SDNApplication) (ctrl : Controller)
    (handler : String) : Except PyErr Bool × SDNApplication × List NetCall :=
  match app.conexiones.lookup handler with
  | none => (.ok false, app, [])
  | some conexion =>
    match app.alumnos.lookup conexion.codigo_alumno with
    | none => (.error .keyError, app, [])
    | some alumno =>
      let (r, t) := get_attachment_point ctrl alumno.mac
      match r with
      | .error e => (.error e, app, t)
      | .ok none => (.ok false, app, t)
      | .ok (some ap) =>
        let (ok, t2) := delete_route ctrl handler ap.1
        if ok then
          (.ok true,
           { app with conexiones := app.conexiones.filter (fun p => p.1 != handler) },
           t ++ t2)
        else (.ok false, app, t ++ t2)

/-! ## Operation sequences over one application instance -/

/-- One Connection-Manager operation, with the controller environment in
effect when it runs. -/
inductive Op where
  | create (ctrl : Controller) (codigo_alumno nombre_servidor nombre_servicio : String)
  | destroy (ctrl : Controller) (handler : String)

/-- Apply one operation; the second component is the handler returned by a
successful create, `none` otherwise. -/
def applyOp (app : SDNApplication) : Op → SDNApplication × Option String
  | .create ctrl a srv svc =>
    let (r, app1, _) := app.crear_conexion ctrl a srv svc
    (app1, match r with | .ok (some h) => some h | _ => none)
  | .destroy ctrl h =>
    let (_, app1, _) := app.eliminar_conexion ctrl h
    (app1, none)

/-- Final state after a sequence of operations. -/
def runApp (app : SDNApplication) : List Op → SDNApplication
  | [] => app
  | op :: ops => runApp (applyOp app op).1 ops

/-- Handlers returned by the successful creates of a sequence, in order. -/
def runIssued (app : SDNApplication) : List Op → List String
  | [] => []
  | op :: ops =>
    (applyOp app op).2.toList ++ runIssued (applyOp app op).1 ops

/-! ## Decimal rendering facts

`mkHandler` renders the connection counter in decimal (via `Nat.repr`) with
zero-padding to width 4.  Handler uniqueness (claims about never reusing a
handler) reduces to injectivity of that rendering, proved here through
Mathlib's `Nat.digits`. -/

theorem toDigitsCore_eq_digits (f : Nat) :
    ∀ (n : Nat) (acc : List Char), 0 < n → n < f →
      Nat.toDigitsCore 10 f n acc =
        ((Nat.digits 10 n).map Nat.digitChar).reverse ++ acc := by
  induction f with
  | zero => intro n acc _ hf; omega
  | succ f ih =>
    intro n acc hn hf
    have hdig : Nat.digits 10 n = n % 10 :: Nat.digits 10 (n / 10) :=
      Nat.digits_def' (by norm_num) hn
    by_cases h10 : n / 10 = 0
    · simp [Nat.toDigitsCore, h10, hdig]
    · have hpos : 0 < n / 10 := Nat.pos_of_ne_zero h10
      have hlt : n / 10 < f := by
        have : n / 10 < n := Nat.div_lt_self hn (by norm_num)
        omega
      simp only [Nat.toDigitsCore, h10, if_false]
      rw [ih (n / 10) (Nat.digitChar (n % 10) :: acc) hpos hlt, hdig]
      simp

theorem repr_eq_digits (n : Nat) (hn : 0 < n) :
    Nat.repr n = (((Nat.digits 10 n).map Nat.digitChar).reverse).asString := by
  show (Nat.toDigits 10 n).asString = _
  rw [Nat.toDigits, toDigitsCore_eq_digits (n + 1) n [] hn (Nat.lt_succ_self n),
    List.append_nil]

theorem digitChar_inj_lt :
    ∀ a, a < 10 → ∀ b, b < 10 → Nat.digitChar a = Nat.digitChar b → a = b := by
  decide

theorem digitChar_ne_zero_char : ∀ a, a < 10 → a ≠ 0 → Nat.digitChar a ≠ '0' := by
  decide

theorem map_digitChar_inj :
    ∀ (l₁ l₂ : List Nat), (∀ x ∈ l₁, x < 10) → (∀ x ∈ l₂, x < 10) →
      l₁.map Nat.digitChar = l₂.map Nat.digitChar → l₁ = l₂ := by
  intro l₁
  induction l₁ with
  | nil => intro l₂ _ _ h; cases l₂ <;> simp_all
  | cons a l ih =>
    intro l₂ h₁ h₂ h
    cases l₂ with
    | nil => simp_all
    | cons b l' =>
      simp only [List.map_cons, List.cons.injEq] at h
      have ha : a = b :=
        digitChar_inj_lt a (h₁ a (by simp)) b (h₂ b (by simp)) h.1
      have hl : l = l' :=
        ih l' (fun x hx => h₁ x (by simp [hx])) (fun x hx => h₂ x (by simp [hx])) h.2
      rw [ha, hl]

/-- The most significant digit of a positive number is non-zero, phrased on
the concat decomposition of `Nat.digits`. -/
theorem digits_concat_ne_zero (n : Nat) (hn : n ≠ 0) (l0 : List Nat) (a : Nat)
    (hcat : Nat.digits 10 n = l0 ++ [a]) : a ≠ 0 := by
  have hne : Nat.digits 10 n ≠ [] := Nat.digits_ne_nil_iff_ne_zero.mpr hn
  have hlast := Nat.getLast_digit_ne_zero 10 hn
  have h1 : (Nat.digits 10 n).getLast? = some a := by
    rw [hcat]; exact List.getLast?_concat l0
  have h2 : (Nat.digits 10 n).getLast? =
      some ((Nat.digits 10 n).getLast hne) := List.getLast?_eq_getLast _ hne
  rw [h1] at h2
  intro ha
  apply hlast
  rw [← Option.some_inj.mp h2, ha]

theorem nat_repr_injective : Function.Injective Nat.repr := by
  intro m n h
  have key : ∀ k : Nat, 0 < k → Nat.repr k ≠ "0" := by
    intro k hk hk0
    rw [repr_eq_digits k hk] at hk0
    have hdata : ((Nat.digits 10 k).map Nat.digitChar).reverse = ['0'] := by
      have h1 := congrArg String.data hk0
      simpa [List.asString] using h1
    have hmap : (Nat.digits 10 k).map Nat.digitChar = ['0'] := by
      have h2 := congrArg List.reverse hdata
      simpa using h2
    have hdig : Nat.digits 10 k = [0] := by
      apply map_digitChar_inj
      · exact fun x hx => Nat.digits_lt_base (by norm_num) hx
      · simp
      · simpa using hmap
    have h3 := Nat.ofDigits_digits 10 k
    rw [hdig] at h3
    simp [Nat.ofDigits] at h3
    omega
  rcases Nat.eq_zero_or_pos m with hm | hm
  · rcases Nat.eq_zero_or_pos n with hn | hn
    · rw [hm, hn]
    · subst hm; exact absurd h.symm (key n hn)
  · rcases Nat.eq_zero_or_pos n with hn | hn
    · subst hn; exact absurd h (key m hm)
    · rw [repr_eq_digits m hm, repr_eq_digits n hn] at h
      have hdig : Nat.digits 10 m = Nat.digits 10 n := by
        apply map_digitChar_inj
        · exact fun x hx => Nat.digits_lt_base (by norm_num) hx
        · exact fun x hx => Nat.digits_lt_base (by norm_num) hx
        · have := List.asString_inj.mp h
          have := congrArg List.reverse this
          simpa using this
      exact Nat.digits_inj_iff.mp hdig

theorem repr_data_ne_nil (n : Nat) : (Nat.repr n).data ≠ [] := by
  rcases Nat.eq_zero_or_pos n with hn | hn
  · subst hn; simp [show Nat.repr 0 = "0" from rfl]
  · rw [repr_eq_digits n hn]
    have : Nat.digits 10 n ≠ [] := Nat.digits_ne_nil_iff_ne_zero.mpr (by omega)
    cases hd : Nat.digits 10 n with
    | nil => exact absurd hd this
    | cons a l => simp [List.asString]

theorem repr_head_zero (n : Nat) (h : (Nat.repr n).data.head? = some '0') : n = 0 := by
  by_contra hne
  have hn : 0 < n := Nat.pos_of_ne_zero hne
  rw [repr_eq_digits n hn] at h
  rcases List.eq_nil_or_concat (Nat.digits 10 n) with hnil | ⟨l0, a, hcat⟩
  · exact absurd hnil (Nat.digits_ne_nil_iff_ne_zero.mpr hne)
  rw [List.concat_eq_append] at hcat
  have ha : a < 10 := Nat.digits_lt_base (by norm_num) (by rw [hcat]; simp)
  have hane : a ≠ 0 := digits_concat_ne_zero n hne l0 a hcat
  have hhd : (((l0 ++ [a]).map Nat.digitChar).reverse).asString.data.head? =
      some (Nat.digitChar a) := by
    simp [List.asString]
  rw [hcat, hhd] at h
  exact digitChar_ne_zero_char a ha hane (by injection h)

theorem mkHandler_injective : Function.Injective mkHandler := by
  have hdata : ∀ n : Nat, (mkHandler n).data =
      "conn_".data ++ (List.replicate (4 - (Nat.repr n).length) '0' ++ (Nat.repr n).data) := by
    intro n
    show ("conn_" ++ pad4 n).data = _
    rw [String.data_append]
    congr 1
    show (pad4 n).data = _
    unfold pad4
    by_cases hlen : (Nat.repr n).length < 4
    · simp only [hlen, if_true, String.data_append]
    · have h4 : 4 - (Nat.repr n).length = 0 := by omega
      simp [hlen, h4]
  have auxhead : ∀ n k, 0 < k →
      (Nat.repr n).data ≠ List.replicate k '0' ++ (Nat.repr n).data := by
    intro n k hk heq
    have := congrArg List.length heq
    simp at this
    omega
  -- main argument on the padded data lists
  have aux : ∀ m n : Nat,
      4 - (Nat.repr m).length ≤ 4 - (Nat.repr n).length →
      List.replicate (4 - (Nat.repr m).length) '0' ++ (Nat.repr m).data =
        List.replicate (4 - (Nat.repr n).length) '0' ++ (Nat.repr n).data →
      m = n := by
    intro m n hle heq
    set km := 4 - (Nat.repr m).length with hkm
    set kn := 4 - (Nat.repr n).length with hkn
    obtain ⟨d, hd⟩ : ∃ d, kn = km + d := ⟨kn - km, by omega⟩
    rw [hd, List.replicate_add, List.append_assoc] at heq
    have heq2 : (Nat.repr m).data = List.replicate d '0' ++ (Nat.repr n).data :=
      List.append_cancel_left heq
    rcases Nat.eq_zero_or_pos d with hd0 | hd0
    · subst hd0
      simp at heq2
      exact nat_repr_injective (String.ext heq2)
    · -- the data of `Nat.repr m` would start with '0', so m = 0, so its data is ['0']
      have hhead : (Nat.repr m).data.head? = some '0' := by
        rw [heq2]
        cases d with
        | zero => omega
        | succ d => simp [List.replicate_succ]
      have hm0 : m = 0 := repr_head_zero m hhead
      subst hm0
      have hnpos : 0 < (Nat.repr n).data.length := List.length_pos.mpr (repr_data_ne_nil n)
      have hlen : 1 = d + (Nat.repr n).data.length := by
        have h0 : (Nat.repr 0).data = ['0'] := rfl
        have hl := congrArg List.length heq2
        rw [h0] at hl
        simpa using hl
      exfalso
      omega
  intro m n h
  have h1 := congrArg String.data h
  rw [hdata m, hdata n] at h1
  have h2 := List.append_cancel_left h1
  rcases le_total (4 - (Nat.repr m).length) (4 - (Nat.repr n).length) with hle | hle
  · exact aux m n hle h2
  · exact (aux n m hle h2.symm).symm

/-! ## Association-list and string helpers for flow-descriptor reasoning -/

theorem append_ne_empty (s t : String) (ht : t ≠ "") : s ++ t ≠ "" := by
  intro h
  apply ht
  have hd := congrArg String.data h
  rw [String.data_append] at hd
  have : t.data = [] := (List.append_eq_nil.mp hd).2
  exact String.ext this

theorem toString_nat_ne_empty (n : Nat) : toString n ≠ "" := by
  intro h
  exact repr_data_ne_nil n (congrArg String.data h)

/-- Looking a key up in a filtered association list is unchanged when every
entry carrying that key passes the filter. -/
theorem lookup_filter_kept (k : String) (p : String × String → Bool) :
    ∀ l : List (String × String), (∀ v, (k, v) ∈ l → p (k, v) = true) →
      List.lookup k (l.filter p) = List.lookup k l := by
  intro l
  induction l with
  | nil => intro _; rfl
  | cons a t ih =>
    obtain ⟨a1, a2⟩ := a
    intro h
    by_cases hak : a1 = k
    · subst hak
      have hp : p (a1, a2) = true := h a2 (by simp)
      simp [List.filter_cons, hp, List.lookup]
    · have hne : (k == a1) = false := beq_eq_false_iff_ne.mpr (fun hh => hak hh.symm)
      have ht := ih (fun v hv => h v (by simp [hv]))
      by_cases hp : p (a1, a2) = true
      · simp [List.filter_cons, hp, List.lookup, hne, ht]
      · simp only [Bool.not_eq_true] at hp
        simp [List.filter_cons, hp, List.lookup, hne, ht]

/-- Looking a key up in a filtered association list yields nothing when
every entry carrying that key is rejected by the filter. -/
theorem lookup_filter_dropped (k : String) (p : String × String → Bool) :
    ∀ l : List (String × String), (∀ v, (k, v) ∈ l → p (k, v) = false) →
      List.lookup k (l.filter p) = none := by
  intro l
  induction l with
  | nil => intro _; rfl
  | cons a t ih =>
    obtain ⟨a1, a2⟩ := a
    intro h
    by_cases hak : a1 = k
    · subst hak
      have hp : p (a1, a2) = false := h a2 (by simp)
      simp only [List.filter_cons, hp, Bool.false_eq_true, if_false]
      exact ih (fun v hv => h v (by simp [hv]))
    · have hne : (k == a1) = false := beq_eq_false_iff_ne.mpr (fun hh => hak hh.symm)
      have ht := ih (fun v hv => h v (by simp [hv]))
      by_cases hp : p (a1, a2) = true
      · simp [List.filter_cons, hp, List.lookup, hne, ht]
      · simp only [Bool.not_eq_true] at hp
        simp [List.filter_cons, hp, List.lookup, hne, ht]

/-- The flows pushed along a trace, in order. -/
def pushedFlows (tr : List NetCall) : List FlowEntry :=
  tr.filterMap (fun c => match c with | .pushFlow _ f => some f | _ => none)

/-- The flow-delete requests along a trace, in order. -/
def deletedNames (tr : List NetCall) : List String :=
  tr.filterMap (fun c => match c with | .deleteFlow _ n => some n | _ => none)

/-! ### Field lookups on the four compiled descriptors -/

theorem arp_request_flow_name (handler dpid : String) (port : Nat) (sv : Servidor) :
    (arp_request_flow handler dpid port sv).lookup "name" =
      some (handler ++ "_arp_request") := by
  simp [arp_request_flow, List.lookup]

theorem arp_reply_flow_name (handler dpid : String) (port : Nat) (al : Alumno)
    (sv : Servidor) :
    (arp_reply_flow handler dpid port al sv).lookup "name" =
      some (handler ++ "_arp_reply") := by
  simp [arp_reply_flow, List.lookup]

theorem outbound_flow_name (handler dpid : String) (port : Nat) (al : Alumno)
    (sv : Servidor) (se : Servicio) :
    (outbound_flow handler dpid port al sv se).lookup "name" =
      some (handler ++ "_outbound") := by
  unfold outbound_flow
  rw [lookup_filter_kept]
  · simp [List.lookup]
  · intro v hv
    simp only [List.mem_cons, Prod.mk.injEq, List.not_mem_nil] at hv
    rcases hv with h | h | h | h | h | h | h | h | h | h | h | h | h | h <;>
      first
      | (exact absurd h.1 (by decide))
      | (rw [h.2]; exact bne_iff_ne.mpr (append_ne_empty handler "_outbound" (by decide)))
      | exact h.elim

theorem inbound_flow_name (handler dpid : String) (port : Nat) (al : Alumno)
    (sv : Servidor) (se : Servicio) :
    (inbound_flow handler dpid port al sv se).lookup "name" =
      some (handler ++ "_inbound") := by
  unfold inbound_flow
  rw [lookup_filter_kept]
  · simp [List.lookup]
  · intro v hv
    simp only [List.mem_cons, Prod.mk.injEq, List.not_mem_nil] at hv
    rcases hv with h | h | h | h | h | h | h | h | h | h | h | h | h <;>
      first
      | (exact absurd h.1 (by decide))
      | (rw [h.2]; exact bne_iff_ne.mpr (append_ne_empty handler "_inbound" (by decide)))
      | exact h.elim

theorem outbound_flow_tcp (handler dpid : String) (port : Nat) (al : Alumno)
    (sv : Servidor) (se : Servicio) (h : se.protocolo = "TCP") :
    (outbound_flow handler dpid port al sv se).lookup "tcp_dst" = some (toString se.puerto) ∧
    (outbound_flow handler dpid port al sv se).lookup "udp_dst" = none := by
  obtain ⟨sn, sp, spt⟩ := se
  simp only [Servicio.protocolo] at h
  subst h
  unfold outbound_flow
  constructor
  · rw [lookup_filter_kept]
    · simp [List.lookup]
    · intro v hv
      simp only [List.mem_cons, Prod.mk.injEq, List.not_mem_nil] at hv
      rcases hv with h | h | h | h | h | h | h | h | h | h | h | h | h | h <;>
        first
        | (exact absurd h.1 (by decide))
        | (rw [h.2]; simp; exact toString_nat_ne_empty spt)
        | exact h.elim
  · rw [lookup_filter_dropped]
    intro v hv
    simp only [List.mem_cons, Prod.mk.injEq, List.not_mem_nil] at hv
    rcases hv with h | h | h | h | h | h | h | h | h | h | h | h | h | h <;>
      first
      | (exact absurd h.1 (by decide))
      | (rw [h.2]; simp)
      | exact h.elim

theorem outbound_flow_udp (handler dpid : String) (port : Nat) (al : Alumno)
    (sv : Servidor) (se : Servicio) (h : se.protocolo = "UDP") :
    (outbound_flow handler dpid port al sv se).lookup "udp_dst" = some (toString se.puerto) ∧
    (outbound_flow handler dpid port al sv se).lookup "tcp_dst" = none := by
  obtain ⟨sn, sp, spt⟩ := se
  simp only [Servicio.protocolo] at h
  subst h
  unfold outbound_flow
  constructor
  · rw [lookup_filter_kept]
    · simp [List.lookup]
    · intro v hv
      simp only [List.mem_cons, Prod.mk.injEq, List.not_mem_nil] at hv
      rcases hv with h | h | h | h | h | h | h | h | h | h | h | h | h | h <;>
        first
        | (exact absurd h.1 (by decide))
        | (rw [h.2]; simp; exact toString_nat_ne_empty spt)
        | exact h.elim
  · rw [lookup_filter_dropped]
    intro v hv
    simp only [List.mem_cons, Prod.mk.injEq, List.not_mem_nil] at hv
    rcases hv with h | h | h | h | h | h | h | h | h | h | h | h | h | h <;>
      first
      | (exact absurd h.1 (by decide))
      | (rw [h.2]; simp)
      | exact h.elim

theorem inbound_flow_tcp (handler dpid : String) (port : Nat) (al : Alumno)
    (sv : Servidor) (se : Servicio) (h : se.protocolo = "TCP") :
    (inbound_flow handler dpid port al sv se).lookup "tcp_src" = some (toString se.puerto) ∧
    (inbound_flow handler dpid port al sv se).lookup "udp_src" = none := by
  obtain ⟨sn, sp, spt⟩ := se
  simp only [Servicio.protocolo] at h
  subst h
  unfold inbound_flow
  constructor
  · rw [lookup_filter_kept]
    · simp [List.lookup]
    · intro v hv
      simp only [List.mem_cons, Prod.mk.injEq, List.not_mem_nil] at hv
      rcases hv with h | h | h | h | h | h | h | h | h | h | h | h | h <;>
        first
        | (exact absurd h.1 (by decide))
        | (rw [h.2]; simp; exact toString_nat_ne_empty spt)
        | exact h.elim
  · rw [lookup_filter_dropped]
    intro v hv
    simp only [List.mem_cons, Prod.mk.injEq, List.not_mem_nil] at hv
    rcases hv with h | h | h | h | h | h | h | h | h | h | h | h | h <;>
      first
      | (exact absurd h.1 (by decide))
      | (rw [h.2]; simp)
      | exact h.elim

theorem inbound_flow_udp (handler dpid : String) (port : Nat) (al : Alumno)
    (sv : Servidor) (se : Servicio) (h : se.protocolo = "UDP") :
    (inbound_flow handler dpid port al sv se).lookup "udp_src" = some (toString se.puerto) ∧
    (inbound_flow handler dpid port al sv se).lookup "tcp_src" = none := by
  obtain ⟨sn, sp, spt⟩ := se
  simp only [Servicio.protocolo] at h
  subst h
  unfold inbound_flow
  constructor
  · rw [lookup_filter_kept]
    · simp [List.lookup]
    · intro v hv
      simp only [List.mem_cons, Prod.mk.injEq, List.not_mem_nil] at hv
      rcases hv with h | h | h | h | h | h | h | h | h | h | h | h | h <;>
        first
        | (exact absurd h.1 (by decide))
        | (rw [h.2]; simp; exact toString_nat_ne_empty spt)
        | exact h.elim
  · rw [lookup_filter_dropped]
    intro v hv
    simp only [List.mem_cons, Prod.mk.injEq, List.not_mem_nil] at hv
    rcases hv with h | h | h | h | h | h | h | h | h | h | h | h | h <;>
      first
      | (exact absurd h.1 (by decide))
      | (rw [h.2]; simp)
      | exact h.elim

/-! ## Concrete fixtures used by the witness theorems -/

/-- Sample student (MAC already in the upper-case form the constructor
stores). -/
def alumnoA : Alumno := ⟨"Alice", "20211049", "AA:BB:CC:DD:EE:FF"⟩

/-- Sample TCP service. -/
def servSsh : Servicio := ⟨"ssh", "TCP", 22⟩

/-- Sample UDP service. -/
def servDns : Servicio := ⟨"dns", "UDP", 53⟩

/-- Sample server owning the two services. -/
def srv1 : Servidor := ⟨"Srv1", "10.0.0.5", [servSsh, servDns]⟩

/-- Sample active course enrolling the student and allow-listing ssh. -/
def curso1 : Curso := ⟨"C1", "Nets", "DICTANDO", ["20211049"], [⟨"Srv1", ["ssh"]⟩]⟩

/-- Sample application state. -/
def app1 : SDNApplication :=
  ⟨[("20211049", alumnoA)], [("C1", curso1)], [("Srv1", srv1)], [], 1⟩

/-- One device record whose MAC matches the sample student. -/
def dev1 : Device := ⟨some ["aa:bb:cc:dd:ee:ff"], some [⟨"00:00:01", 3⟩]⟩

/-- A healthy controller: the device inventory resolves the student and all
pushes and deletes are acknowledged. -/
def okCtrl : Controller := ⟨.ok [dev1], fun _ _ => .ok (), fun _ _ => .ok ()⟩

/-- A controller with an empty device inventory. -/
def emptyCtrl : Controller := ⟨.ok [], fun _ _ => .ok (), fun _ _ => .ok ()⟩

/-- A controller returning a malformed device record: the `mac` key is
present but its list is empty. -/
def crashCtrl : Controller := ⟨.ok [⟨some [], none⟩], fun _ _ => .ok (), fun _ _ => .ok ()⟩

/-- A controller that resolves devices but rejects every flow push. -/
def badPushCtrl : Controller :=
  ⟨.ok [dev1], fun _ _ => .error .requestException, fun _ _ => .ok ()⟩

/-! ## Claim C1 — the authorization predicate -/

theorem alumno_tiene_acceso_servicio_iff (c : Curso) (a srv svc : String) :
    c.alumno_tiene_acceso_servicio a srv svc = true ↔
      a ∈ c.alumnos ∧ c.estado = "DICTANDO" ∧
        ∃ sp, c.servidores.find? (fun s => s.nombre == srv) = some sp ∧
          svc ∈ sp.servicios_permitidos := by
  unfold Curso.alumno_tiene_acceso_servicio
  by_cases h1 : c.alumnos.contains a
  · by_cases h2 : c.estado = "DICTANDO"
    · cases hf : c.servidores.find? (fun s => s.nombre == srv) with
      | none => simp [h1, h2, hf, List.elem_iff] at *
      | some sp => simp [h1, h2, hf, List.elem_iff] at *
    · simp [h1, h2, List.elem_iff] at *
  · simp [h1, List.elem_iff] at *
    intro hmem
    exact absurd hmem h1

/-- A state with one active enrolling course whose allow-list holds two
bindings for the same server name: the first one omits the service, the
second one grants it. -/
def appShadow : SDNApplication :=
  ⟨[], [("C1", ⟨"C1", "Nets", "DICTANDO", ["a"], [⟨"X", []⟩, ⟨"X", ["S"]⟩]⟩)], [], [], 1⟩

/-- Claim C1, counterexample: `verificar_autorizacion` returns `false` on a
state where SOME allow-list binding of an active enrolling course names the
target server and permits the target service — the grant sits in the second
binding named `"X"`, but the scan only consults the first one. -/
theorem verificar_autorizacion_some_binding_counterexample :
    appShadow.verificar_autorizacion "a" "X" "S" = false ∧
    ∃ kc ∈ appShadow.cursos,
      "a" ∈ kc.2.alumnos ∧ kc.2.estado = "DICTANDO" ∧
      ∃ sp ∈ kc.2.servidores, sp.nombre = "X" ∧ "S" ∈ sp.servicios_permitidos := by
  decide

/-- Claim C1 (amended): `verificar_autorizacion` returns `true` iff some
course enrolls the principal, is in the active state (`"DICTANDO"`), and
the FIRST of its allow-list bindings naming the target server includes the
target service in its permitted set (bindings after the first name match
are not consulted); it is a pure function of the state, so it has no side
effects. -/
theorem verificar_autorizacion_first_binding_iff (app : SDNApplication)
    (a srv svc : String) :
    app.verificar_autorizacion a srv svc = true ↔
      ∃ kc ∈ app.cursos, a ∈ kc.2.alumnos ∧ kc.2.estado = "DICTANDO" ∧
        ∃ sp, kc.2.servidores.find? (fun s => s.nombre == srv) = some sp ∧
          svc ∈ sp.servicios_permitidos := by
  unfold SDNApplication.verificar_autorizacion
  rw [List.any_eq_true]
  constructor
  · rintro ⟨kc, hmem, hb⟩
    exact ⟨kc, hmem, (alumno_tiene_acceso_servicio_iff kc.2 a srv svc).mp hb⟩
  · rintro ⟨kc, hmem, hprop⟩
    exact ⟨kc, hmem, (alumno_tiene_acceso_servicio_iff kc.2 a srv svc).mpr hprop⟩

/-! ## Claim C5 — normalization-invariance of attachment resolution -/

/-- Claim C5: attachment resolution is case- and delimiter-insensitive in
the hardware address — the query address enters `get_attachment_point` only
through `normalizeMac`, so any two addresses with equal normalized forms
resolve identically against the same device inventory. -/
theorem get_attachment_point_norm_invariant (ctrl : Controller) (a₁ a₂ : String)
    (h : normalizeMac a₁ = normalizeMac a₂) :
    get_attachment_point ctrl a₁ = get_attachment_point ctrl a₂ := by
  unfold get_attachment_point
  rw [h]

/-- A device inventory holding the address of the spec's example. -/
def ctrl5 : Controller :=
  ⟨.ok [⟨some ["00:1a:2b:3c:4d:5e"], some [⟨"sw1", 7⟩]⟩],
   fun _ _ => .ok (), fun _ _ => .ok ()⟩

/-- Claim C5, witness: the three example spellings of the spec resolve to
the same attachment point against the same inventory. -/
theorem get_attachment_point_norm_invariant_witness :
    (normalizeMac "00:1A:2B:3C:4D:5E" = normalizeMac "00-1a-2b-3c-4d-5e" ∧
     get_attachment_point ctrl5 "00:1A:2B:3C:4D:5E" =
       get_attachment_point ctrl5 "00-1a-2b-3c-4d-5e") ∧
    (normalizeMac "001A2B3C4D5E" = normalizeMac "00-1a-2b-3c-4d-5e" ∧
     get_attachment_point ctrl5 "001A2B3C4D5E" =
       get_attachment_point ctrl5 "00-1a-2b-3c-4d-5e") ∧
    (get_attachment_point ctrl5 "00-1a-2b-3c-4d-5e").1 = .ok (some ("sw1", 7)) :=
  ⟨⟨by decide, get_attachment_point_norm_invariant ctrl5 _ _ (by decide)⟩,
   ⟨by decide, get_attachment_point_norm_invariant ctrl5 _ _ (by decide)⟩,
   by rfl⟩

/-! ## Claim C4 — protocol field exclusivity of compiled descriptors -/

/-- Claim C4: on every compiled outbound and inbound descriptor, for a TCP
service the TCP destination/source port field is present (carrying the
service port) and no UDP port field exists at all (the key is absent, it is
not mapped to an empty value), and symmetrically for a UDP service. -/
theorem flow_protocol_exclusivity (handler dpid : String) (port : Nat)
    (al : Alumno) (sv : Servidor) (se : Servicio) :
    (se.protocolo = "TCP" →
      (outbound_flow handler dpid port al sv se).lookup "tcp_dst" = some (toString se.puerto) ∧
      (outbound_flow handler dpid port al sv se).lookup "udp_dst" = none ∧
      (inbound_flow handler dpid port al sv se).lookup "tcp_src" = some (toString se.puerto) ∧
      (inbound_flow handler dpid port al sv se).lookup "udp_src" = none) ∧
    (se.protocolo = "UDP" →
      (outbound_flow handler dpid port al sv se).lookup "udp_dst" = some (toString se.puerto) ∧
      (outbound_flow handler dpid port al sv se).lookup "tcp_dst" = none ∧
      (inbound_flow handler dpid port al sv se).lookup "udp_src" = some (toString se.puerto) ∧
      (inbound_flow handler dpid port al sv se).lookup "tcp_src" = none) := by
  constructor
  · intro h
    exact ⟨(outbound_flow_tcp handler dpid port al sv se h).1,
           (outbound_flow_tcp handler dpid port al sv se h).2,
           (inbound_flow_tcp handler dpid port al sv se h).1,
           (inbound_flow_tcp handler dpid port al sv se h).2⟩
  · intro h
    exact ⟨(outbound_flow_udp handler dpid port al sv se h).1,
           (outbound_flow_udp handler dpid port al sv se h).2,
           (inbound_flow_udp handler dpid port al sv se h).1,
           (inbound_flow_udp handler dpid port al sv se h).2⟩

/-- Claim C4, witness: evaluated on the sample TCP service (ssh, port 22)
and the sample UDP service (dns, port 53). -/
theorem flow_protocol_exclusivity_witness :
    ((outbound_flow "conn_0001" "00:00:01" 3 alumnoA srv1 servSsh).lookup "tcp_dst" =
        some (toString servSsh.puerto) ∧
      (outbound_flow "conn_0001" "00:00:01" 3 alumnoA srv1 servSsh).lookup "udp_dst" = none ∧
      (inbound_flow "conn_0001" "00:00:01" 3 alumnoA srv1 servSsh).lookup "tcp_src" =
        some (toString servSsh.puerto) ∧
      (inbound_flow "conn_0001" "00:00:01" 3 alumnoA srv1 servSsh).lookup "udp_src" = none) ∧
    ((outbound_flow "conn_0001" "00:00:01" 3 alumnoA srv1 servDns).lookup "udp_dst" =
        some (toString servDns.puerto) ∧
      (outbound_flow "conn_0001" "00:00:01" 3 alumnoA srv1 servDns).lookup "tcp_dst" = none ∧
      (inbound_flow "conn_0001" "00:00:01" 3 alumnoA srv1 servDns).lookup "udp_src" =
        some (toString servDns.puerto) ∧
      (inbound_flow "conn_0001" "00:00:01" 3 alumnoA srv1 servDns).lookup "tcp_src" = none) :=
  ⟨(flow_protocol_exclusivity "conn_0001" "00:00:01" 3 alumnoA srv1 servSsh).1 rfl,
   (flow_protocol_exclusivity "conn_0001" "00:00:01" 3 alumnoA srv1 servDns).2 rfl⟩

/-! ## Claim C3 — four descriptors, fixed order, matching teardown names -/

/-- Claim C3: whenever the principal's attachment point resolves (and the
inventory raises no exception), `build_route` pushes exactly four flow
descriptors, in the order arp_request, arp_reply, outbound, inbound, named
`{handler}_arp_request`, `{handler}_arp_reply`, `{handler}_outbound`,
`{handler}_inbound`; and `delete_route` requests deletion of exactly these
same four names for the same handler. -/
theorem build_route_four_flows (ctrl : Controller) (al : Alumno) (sv : Servidor)
    (se : Servicio) (handler dpid : String) (sap : String × Nat) (dst : Option (String × Nat))
    (hsrc : (get_attachment_point ctrl al.mac).1 = .ok (some sap))
    (hdummy : (get_attachment_point ctrl "dummy").1 = .ok dst) :
    (pushedFlows (build_route ctrl al sv se handler).2).map (fun f => f.lookup "name") =
      [some (handler ++ "_arp_request"), some (handler ++ "_arp_reply"),
       some (handler ++ "_outbound"), some (handler ++ "_inbound")] ∧
    deletedNames (delete_route ctrl handler dpid).2 =
      [handler ++ "_arp_request", handler ++ "_arp_reply",
       handler ++ "_outbound", handler ++ "_inbound"] := by
  constructor
  · have hsrc' : gapScan (normalizeMac al.mac) (get_devices ctrl) = .ok (some sap) := hsrc
    have hdummy' : gapScan (normalizeMac "dummy") (get_devices ctrl) = .ok dst := hdummy
    simp only [build_route, get_attachment_point, hsrc', hdummy']
    rcases dst with _ | dap
    · simp [pushedFlows, arp_request_flow_name, arp_reply_flow_name,
        outbound_flow_name, inbound_flow_name]
    · by_cases hdp : (sap.1 == dap.1) = true <;>
        simp [hdp, pushedFlows, arp_request_flow_name, arp_reply_flow_name,
          outbound_flow_name, inbound_flow_name]
  · simp [delete_route, deletedNames]

/-- Claim C3, witness: the healthy sample controller resolves the sample
student at switch `00:00:01` port 3, and the four names come out in
order. -/
theorem build_route_four_flows_witness :
    (pushedFlows (build_route okCtrl alumnoA srv1 servSsh "conn_0001").2).map
        (fun f => f.lookup "name") =
      [some ("conn_0001" ++ "_arp_request"), some ("conn_0001" ++ "_arp_reply"),
       some ("conn_0001" ++ "_outbound"), some ("conn_0001" ++ "_inbound")] ∧
    deletedNames (delete_route okCtrl "conn_0001" "00:00:01").2 =
      ["conn_0001" ++ "_arp_request", "conn_0001" ++ "_arp_reply",
       "conn_0001" ++ "_outbound", "conn_0001" ++ "_inbound"] :=
  build_route_four_flows okCtrl alumnoA srv1 servSsh "conn_0001" "00:00:01"
    ("00:00:01", 3) none (by rfl) (by rfl)

/-! ## Claim C2 — create succeeds iff authorized -/

/-- A state where every entity exists and an active enrolling course grants
the service only in the SECOND of two bindings named after the target
server. -/
def appShadow2 : SDNApplication :=
  ⟨[("20211049", alumnoA)],
   [("C1", ⟨"C1", "Nets", "DICTANDO", ["20211049"], [⟨"Srv1", []⟩, ⟨"Srv1", ["ssh"]⟩]⟩)],
   [("Srv1", srv1)], [], 1⟩

/-- Claim C2, counterexample: an ACTIVE course enrolling the principal has
an allow-list binding for the server that includes the service, the
controller is healthy, yet `crear_conexion` fails (Unauthorized, `None`)
with an empty controller trace — because the grant sits behind a
duplicate-named binding that the scan never reaches. -/
theorem crear_conexion_succeeds_iff_counterexample :
    (∃ kc ∈ appShadow2.cursos, "20211049" ∈ kc.2.alumnos ∧ kc.2.estado = "DICTANDO" ∧
       ∃ sp ∈ kc.2.servidores, sp.nombre = "Srv1" ∧ "ssh" ∈ sp.servicios_permitidos) ∧
    (appShadow2.crear_conexion okCtrl "20211049" "Srv1" "ssh").1 = .ok none ∧
    (appShadow2.crear_conexion okCtrl "20211049" "Srv1" "ssh").2.2 = [] :=
  ⟨by decide, by rfl, by rfl⟩

/-- Claim C2 (amended): for principal, server and service that exist in the
registries — when `verificar_autorizacion` (first-matching-binding
semantics, claim C1) denies, create fails with `None` and performs no
controller call at all (in particular zero flow pushes); success always
implies the predicate granted; and when it grants, if the controller
resolves the principal's attachment point, raises no exception on the
inventory scans, and acknowledges every push, create succeeds and returns
the fresh handler. -/
theorem crear_conexion_authorized_iff (app : SDNApplication) (ctrl : Controller)
    (a srv svc : String) (alumno : Alumno) (servidor : Servidor) (servicio : Servicio)
    (hal : app.alumnos.lookup a = some alumno)
    (hsv : app.servidores.lookup srv = some servidor)
    (hse : servidor.obtener_servicio svc = some servicio) :
    (app.verificar_autorizacion a srv svc = false →
       (app.crear_conexion ctrl a srv svc).1 = .ok none ∧
       (app.crear_conexion ctrl a srv svc).2.2 = []) ∧
    (∀ h, (app.crear_conexion ctrl a srv svc).1 = .ok (some h) →
       app.verificar_autorizacion a srv svc = true) ∧
    (app.verificar_autorizacion a srv svc = true →
      ∀ sap dst, (get_attachment_point ctrl alumno.mac).1 = .ok (some sap) →
        (get_attachment_point ctrl "dummy").1 = .ok dst →
        (∀ d f, push_flow ctrl d f = true) →
        (app.crear_conexion ctrl a srv svc).1 =
          .ok (some (mkHandler app.connection_counter))) := by
  refine ⟨?_, ?_, ?_⟩
  · intro hv
    unfold SDNApplication.crear_conexion
    simp [hal, hsv, hse, hv]
  · intro h hok
    by_contra hv
    rw [Bool.not_eq_true] at hv
    unfold SDNApplication.crear_conexion at hok
    simp [hal, hsv, hse, hv] at hok
  · intro hv sap dst hsrc hdummy hpush
    have hsrc' : gapScan (normalizeMac alumno.mac) (get_devices ctrl) = .ok (some sap) := hsrc
    have hdummy' : gapScan (normalizeMac "dummy") (get_devices ctrl) = .ok dst := hdummy
    have hbr : (build_route ctrl alumno servidor servicio
        (mkHandler app.connection_counter)).1 = .ok true := by
      simp only [build_route, get_attachment_point, hsrc', hdummy']
      rcases dst with _ | dap
      · simp [hpush]
      · by_cases hdp : (sap.1 == dap.1) = true <;> simp [hdp, hpush]
    unfold SDNApplication.crear_conexion
    simp only [hal, hsv, hse, hv, if_true]
    cases hb : build_route ctrl alumno servidor servicio (mkHandler app.connection_counter) with
    | mk r t =>
      rw [hb] at hbr
      simp at hbr
      subst hbr
      simp [hb]

/-- Claim C2, witness: instantiated on the sample state (where the three
entities exist) and the healthy sample controller. -/
theorem crear_conexion_authorized_iff_witness :
    (app1.verificar_autorizacion "20211049" "Srv1" "ssh" = false →
       (app1.crear_conexion okCtrl "20211049" "Srv1" "ssh").1 = .ok none ∧
       (app1.crear_conexion okCtrl "20211049" "Srv1" "ssh").2.2 = []) ∧
    (∀ h, (app1.crear_conexion okCtrl "20211049" "Srv1" "ssh").1 = .ok (some h) →
       app1.verificar_autorizacion "20211049" "Srv1" "ssh" = true) ∧
    (app1.verificar_autorizacion "20211049" "Srv1" "ssh" = true →
      ∀ sap dst, (get_attachment_point okCtrl alumnoA.mac).1 = .ok (some sap) →
        (get_attachment_point okCtrl "dummy").1 = .ok dst →
        (∀ d f, push_flow okCtrl d f = true) →
        (app1.crear_conexion okCtrl "20211049" "Srv1" "ssh").1 =
          .ok (some (mkHandler app1.connection_counter))) :=
  crear_conexion_authorized_iff app1 okCtrl "20211049" "Srv1" "ssh"
    alumnoA srv1 servSsh rfl rfl rfl

/-! ## Claim C7 — failed create mutates no connection state, rolls nothing back -/

theorem gapScan_cons_none (m : String) (dap : Option (List APRecord)) (t : List Device) :
    gapScan m (⟨none, dap⟩ :: t) = gapScan m t := rfl

theorem gapScan_cons_nil (m : String) (dap : Option (List APRecord)) (t : List Device) :
    gapScan m (⟨some [], dap⟩ :: t) = .error .indexError := rfl

theorem gapScan_cons_some (m m0 : String) (ms : List String)
    (dap : Option (List APRecord)) (t : List Device) :
    gapScan m (⟨some (m0 :: ms), dap⟩ :: t) =
      if normalizeMac m0 == m then
        match dap with
        | some (ap :: _) => .ok (some (ap.switchDPID, ap.port))
        | _ => gapScan m t
      else gapScan m t := rfl

/-- A scan that completed without a match visited every device record, so
no record can make any other scan of the same inventory raise. -/
theorem gapScan_ok_none_no_error (m : String) :
    ∀ l : List Device, gapScan m l = .ok none →
      ∀ m2 : String, ∃ y, gapScan m2 l = .ok y := by
  intro l
  induction l with
  | nil => intro _ m2; exact ⟨none, rfl⟩
  | cons d t ih =>
    obtain ⟨dmac, dap⟩ := d
    intro h m2
    rcases dmac with _ | ⟨_ | ⟨m0, ms⟩⟩
    · rw [gapScan_cons_none] at h
      rw [gapScan_cons_none]
      exact ih h m2
    · rw [gapScan_cons_nil] at h
      simp at h
    · rw [gapScan_cons_some] at h
      rw [gapScan_cons_some]
      rcases dap with _ | ⟨_ | ⟨ap, aps⟩⟩
      · simp only [] at h ⊢
        by_cases h1 : (normalizeMac m0 == m) = true
        · rw [if_pos h1] at h; by_cases h2 : (normalizeMac m0 == m2) = true
          · rw [if_pos h2]; exact ih h m2
          · rw [if_neg h2]; exact ih h m2
        · rw [if_neg h1] at h; by_cases h2 : (normalizeMac m0 == m2) = true
          · rw [if_pos h2]; exact ih h m2
          · rw [if_neg h2]; exact ih h m2
      · simp only [] at h ⊢
        by_cases h1 : (normalizeMac m0 == m) = true
        · rw [if_pos h1] at h; by_cases h2 : (normalizeMac m0 == m2) = true
          · rw [if_pos h2]; exact ih h m2
          · rw [if_neg h2]; exact ih h m2
        · rw [if_neg h1] at h; by_cases h2 : (normalizeMac m0 == m2) = true
          · rw [if_pos h2]; exact ih h m2
          · rw [if_neg h2]; exact ih h m2
      · by_cases h1 : (normalizeMac m0 == m) = true
        · rw [if_pos h1] at h; simp at h
        · rw [if_neg h1] at h
          by_cases h2 : (normalizeMac m0 == m2) = true
          · rw [if_pos h2]; exact ⟨some (ap.switchDPID, ap.port), rfl⟩
          · rw [if_neg h2]; exact ih h m2

/-- `build_route` never issues a flow-delete request. -/
theorem build_route_no_deletes (ctrl : Controller) (al : Alumno) (sv : Servidor)
    (se : Servicio) (handler : String) :
    deletedNames (build_route ctrl al sv se handler).2 = [] := by
  unfold build_route get_attachment_point
  cases h1 : gapScan (normalizeMac al.mac) (get_devices ctrl) with
  | error e => simp [deletedNames]
  | ok src =>
    cases h2 : gapScan (normalizeMac "dummy") (get_devices ctrl) with
    | error e => simp [deletedNames]
    | ok dst =>
      rcases src with _ | sap
      · simp [deletedNames]
      · rcases dst with _ | dap
        · simp [deletedNames]
        · by_cases hdp : (sap.1 == dap.1) = true <;> simp [hdp, deletedNames]

/-- When the principal's attachment point does not resolve, `build_route`
returns `False` after the two inventory queries, pushing nothing. -/
theorem build_route_src_none (ctrl : Controller) (al : Alumno) (sv : Servidor)
    (se : Servicio) (handler : String)
    (h1 : gapScan (normalizeMac al.mac) (get_devices ctrl) = .ok none) :
    build_route ctrl al sv se handler = (.ok false, [.getDevices, .getDevices]) := by
  obtain ⟨dst, h2⟩ := gapScan_ok_none_no_error _ _ h1 (normalizeMac "dummy")
  unfold build_route get_attachment_point
  simp [h1, h2]

/-- When the principal's attachment point resolves (and the inventory scans
raise nothing), `build_route` reports success exactly when all four pushes
were acknowledged. -/
theorem build_route_result (ctrl : Controller) (al : Alumno) (sv : Servidor)
    (se : Servicio) (handler : String) (sap : String × Nat) (dst : Option (String × Nat))
    (hsrc : (get_attachment_point ctrl al.mac).1 = .ok (some sap))
    (hdummy : (get_attachment_point ctrl "dummy").1 = .ok dst) :
    (build_route ctrl al sv se handler).1 = .ok
      (push_flow ctrl sap.1 (arp_request_flow handler sap.1 sap.2 sv) &&
       push_flow ctrl sap.1 (arp_reply_flow handler sap.1 sap.2 al sv) &&
       push_flow ctrl sap.1 (outbound_flow handler sap.1 sap.2 al sv se) &&
       push_flow ctrl sap.1 (inbound_flow handler sap.1 sap.2 al sv se)) := by
  have hsrc' : gapScan (normalizeMac al.mac) (get_devices ctrl) = .ok (some sap) := hsrc
  have hdummy' : gapScan (normalizeMac "dummy") (get_devices ctrl) = .ok dst := hdummy
  unfold build_route get_attachment_point
  simp only [hsrc', hdummy']

/-- Claim C7: every failed create (returning `None` or raising) leaves the
connection table unchanged; if attachment resolution reports no match the
result is `None` and zero flows are pushed; create never issues a
flow-delete request, so flows pushed before a failing push are not rolled
back; and if any of the four compiled pushes is rejected, the operation
reports failure (`None`) and records no connection. -/
theorem crear_conexion_failure (app : SDNApplication) (ctrl : Controller)
    (a srv svc : String) :
    ((∀ h, (app.crear_conexion ctrl a srv svc).1 ≠ .ok (some h)) →
       (app.crear_conexion ctrl a srv svc).2.1.conexiones = app.conexiones) ∧
    (∀ alumno, app.alumnos.lookup a = some alumno →
       (get_attachment_point ctrl alumno.mac).1 = .ok none →
       (app.crear_conexion ctrl a srv svc).1 = .ok none ∧
       pushedFlows (app.crear_conexion ctrl a srv svc).2.2 = []) ∧
    deletedNames (app.crear_conexion ctrl a srv svc).2.2 = [] ∧
    (∀ alumno servidor servicio (sap : String × Nat) (dst : Option (String × Nat)),
       app.alumnos.lookup a = some alumno →
       app.servidores.lookup srv = some servidor →
       servidor.obtener_servicio svc = some servicio →
       (get_attachment_point ctrl alumno.mac).1 = .ok (some sap) →
       (get_attachment_point ctrl "dummy").1 = .ok dst →
       (push_flow ctrl sap.1
            (arp_request_flow (mkHandler app.connection_counter) sap.1 sap.2 servidor) = false ∨
        push_flow ctrl sap.1
            (arp_reply_flow (mkHandler app.connection_counter) sap.1 sap.2 alumno servidor) = false ∨
        push_flow ctrl sap.1
            (outbound_flow (mkHandler app.connection_counter) sap.1 sap.2 alumno servidor servicio) = false ∨
        push_flow ctrl sap.1
            (inbound_flow (mkHandler app.connection_counter) sap.1 sap.2 alumno servidor servicio) = false) →
       (app.crear_conexion ctrl a srv svc).1 = .ok none ∧
       (app.crear_conexion ctrl a srv svc).2.1.conexiones = app.conexiones) := by
  have part4 : ∀ alumno servidor servicio (sap : String × Nat) (dst : Option (String × Nat)),
      app.alumnos.lookup a = some alumno →
      app.servidores.lookup srv = some servidor →
      servidor.obtener_servicio svc = some servicio →
      (get_attachment_point ctrl alumno.mac).1 = .ok (some sap) →
      (get_attachment_point ctrl "dummy").1 = .ok dst →
      (push_flow ctrl sap.1
           (arp_request_flow (mkHandler app.connection_counter) sap.1 sap.2 servidor) = false ∨
       push_flow ctrl sap.1
           (arp_reply_flow (mkHandler app.connection_counter) sap.1 sap.2 alumno servidor) = false ∨
       push_flow ctrl sap.1
           (outbound_flow (mkHandler app.connection_counter) sap.1 sap.2 alumno servidor servicio) = false ∨
       push_flow ctrl sap.1
           (inbound_flow (mkHandler app.connection_counter) sap.1 sap.2 alumno servidor servicio) = false) →
      (app.crear_conexion ctrl a srv svc).1 = .ok none ∧
      (app.crear_conexion ctrl a srv svc).2.1.conexiones = app.conexiones := by
    intro alumno servidor servicio sap dst halm hsrv hser hsrc hdummy hfailone
    have hb := build_route_result ctrl alumno servidor servicio
      (mkHandler app.connection_counter) sap dst hsrc hdummy
    have hfalse : (push_flow ctrl sap.1
          (arp_request_flow (mkHandler app.connection_counter) sap.1 sap.2 servidor) &&
        push_flow ctrl sap.1
          (arp_reply_flow (mkHandler app.connection_counter) sap.1 sap.2 alumno servidor) &&
        push_flow ctrl sap.1
          (outbound_flow (mkHandler app.connection_counter) sap.1 sap.2 alumno servidor servicio) &&
        push_flow ctrl sap.1
          (inbound_flow (mkHandler app.connection_counter) sap.1 sap.2 alumno servidor servicio)) =
        false := by
      rcases hfailone with h | h | h | h <;> simp [h]
    rw [hfalse] at hb
    by_cases hv : app.verificar_autorizacion a srv svc = true
    · unfold SDNApplication.crear_conexion
      simp only [halm, hsrv, hser, hv, if_true]
      cases hbpair : build_route ctrl alumno servidor servicio
        (mkHandler app.connection_counter) with
      | mk r t =>
        rw [hbpair] at hb
        simp at hb
        subst hb
        simp only [hbpair]
        exact ⟨by trivial, by trivial⟩
    · rw [Bool.not_eq_true] at hv
      unfold SDNApplication.crear_conexion
      simp [halm, hsrv, hser, hv]
  have habc :
      ((∀ h, (app.crear_conexion ctrl a srv svc).1 ≠ .ok (some h)) →
         (app.crear_conexion ctrl a srv svc).2.1.conexiones = app.conexiones) ∧
      (∀ alumno, app.alumnos.lookup a = some alumno →
         (get_attachment_point ctrl alumno.mac).1 = .ok none →
         (app.crear_conexion ctrl a srv svc).1 = .ok none ∧
         pushedFlows (app.crear_conexion ctrl a srv svc).2.2 = []) ∧
      deletedNames (app.crear_conexion ctrl a srv svc).2.2 = [] := by
    cases hal : app.alumnos.lookup a with
    | none => simp [SDNApplication.crear_conexion, hal, pushedFlows, deletedNames]
    | some alumno0 =>
      cases hsv : app.servidores.lookup srv with
      | none => simp [SDNApplication.crear_conexion, hal, hsv, pushedFlows, deletedNames]
      | some servidor0 =>
        cases hse : servidor0.obtener_servicio svc with
        | none => simp [SDNApplication.crear_conexion, hal, hsv, hse, pushedFlows, deletedNames]
        | some servicio0 =>
          by_cases hv : app.verificar_autorizacion a srv svc = true
          · cases hbr : build_route ctrl alumno0 servidor0 servicio0
              (mkHandler app.connection_counter) with
            | mk r t =>
              have hnd := build_route_no_deletes ctrl alumno0 servidor0 servicio0
                (mkHandler app.connection_counter)
              rw [hbr] at hnd
              refine ⟨?_, ?_, ?_⟩
              · intro hfail
                unfold SDNApplication.crear_conexion
                simp only [hal, hsv, hse, hv, if_true, hbr]
                cases r with
                | error e => rfl
                | ok b =>
                  cases b
                  · rfl
                  · exfalso
                    apply hfail (mkHandler app.connection_counter)
                    unfold SDNApplication.crear_conexion
                    simp only [hal, hsv, hse, hv, if_true, hbr]
              · intro alumno halm hgap
                have haleq : alumno = alumno0 := by
                  injection halm with hh
                  exact hh.symm
                subst haleq
                have hbr2 := build_route_src_none ctrl alumno servidor0 servicio0
                  (mkHandler app.connection_counter) hgap
                rw [hbr] at hbr2
                injection hbr2 with hr ht
                subst hr; subst ht
                unfold SDNApplication.crear_conexion
                simp only [hal, hsv, hse, hv, if_true, hbr]
                exact ⟨trivial, by simp [pushedFlows]⟩
              · unfold SDNApplication.crear_conexion
                simp only [hal, hsv, hse, hv, if_true, hbr]
                cases r with
                | error e => exact hnd
                | ok b => cases b <;> exact hnd
          · rw [Bool.not_eq_true] at hv
            simp [SDNApplication.crear_conexion, hal, hsv, hse, hv, pushedFlows, deletedNames]
  exact ⟨habc.1, habc.2.1, habc.2.2, part4⟩

/-- A controller that resolves the sample student but rejects exactly one
push: the one whose flow is named `conn_0001_outbound`. -/
def oneFailCtrl : Controller :=
  ⟨.ok [dev1],
   fun _ f =>
     if f.lookup "name" == some "conn_0001_outbound" then .error .requestException
     else .ok (),
   fun _ _ => .ok ()⟩

/-- Claim C7, witness: against a controller that rejects every push the
sample create records nothing and issues no delete; and against a
controller that accepts the ARP pushes but rejects only the outbound push,
the create reports failure (`None`) and records nothing. -/
theorem crear_conexion_failure_witness :
    ((app1.crear_conexion badPushCtrl "20211049" "Srv1" "ssh").2.1.conexiones =
       app1.conexiones ∧
     deletedNames (app1.crear_conexion badPushCtrl "20211049" "Srv1" "ssh").2.2 = []) ∧
    push_flow oneFailCtrl "00:00:01"
      (arp_request_flow (mkHandler app1.connection_counter) "00:00:01" 3 srv1) = true ∧
    push_flow oneFailCtrl "00:00:01"
      (outbound_flow (mkHandler app1.connection_counter) "00:00:01" 3 alumnoA srv1 servSsh) =
      false ∧
    (app1.crear_conexion oneFailCtrl "20211049" "Srv1" "ssh").1 = .ok none ∧
    (app1.crear_conexion oneFailCtrl "20211049" "Srv1" "ssh").2.1.conexiones =
      app1.conexiones :=
  ⟨⟨(crear_conexion_failure app1 badPushCtrl "20211049" "Srv1" "ssh").1
       (fun _ hk => Option.noConfusion (Except.ok.inj hk)),
    (crear_conexion_failure app1 badPushCtrl "20211049" "Srv1" "ssh").2.2.1⟩,
   by rfl,
   by rfl,
   ((crear_conexion_failure app1 oneFailCtrl "20211049" "Srv1" "ssh").2.2.2
     alumnoA srv1 servSsh ("00:00:01", 3) none (by rfl) (by rfl) (by rfl) (by rfl) (by rfl)
     (Or.inr (Or.inr (Or.inl (by rfl))))).1,
   ((crear_conexion_failure app1 oneFailCtrl "20211049" "Srv1" "ssh").2.2.2
     alumnoA srv1 servSsh ("00:00:01", 3) none (by rfl) (by rfl) (by rfl) (by rfl) (by rfl)
     (Or.inr (Or.inr (Or.inl (by rfl))))).2⟩

/-! ## Claim C8 — teardown behaviour and two-call idempotence -/

theorem lookup_filter_ne_self (h : String) (l : List (String × Conexion)) :
    List.lookup h (l.filter fun p => p.1 != h) = none := by
  induction l with
  | nil => rfl
  | cons a t ih =>
    obtain ⟨a1, a2⟩ := a
    by_cases hah : a1 = h
    · subst hah
      simp [List.filter_cons, ih]
    · have h1 : (a1 != h) = true := bne_iff_ne.mpr hah
      have h2 : (h == a1) = false := beq_eq_false_iff_ne.mpr (fun hh => hah hh.symm)
      simp [List.filter_cons, h1, List.lookup, h2, ih]

/-- Claim C8: destroying an unknown handler fails immediately with `False`
and touches nothing; when the handler exists (and its principal is still
registered), a failed attachment re-resolution or any failed delete leaves
the record in place and returns `False`, while full success returns `True`
and removes the record — hence a second destroy of the same handler reports
the unknown-handler failure. -/
theorem eliminar_conexion_behaviour (app : SDNApplication) (ctrl : Controller)
    (h : String) :
    (app.conexiones.lookup h = none →
       app.eliminar_conexion ctrl h = (.ok false, app, [])) ∧
    (∀ cx alumno, app.conexiones.lookup h = some cx →
       app.alumnos.lookup cx.codigo_alumno = some alumno →
       ((get_attachment_point ctrl alumno.mac).1 = .ok none →
          (app.eliminar_conexion ctrl h).1 = .ok false ∧
          (app.eliminar_conexion ctrl h).2.1 = app) ∧
       (∀ ap, (get_attachment_point ctrl alumno.mac).1 = .ok (some ap) →
          ((delete_route ctrl h ap.1).1 = false →
             (app.eliminar_conexion ctrl h).1 = .ok false ∧
             (app.eliminar_conexion ctrl h).2.1 = app) ∧
          ((delete_route ctrl h ap.1).1 = true →
             (app.eliminar_conexion ctrl h).1 = .ok true ∧
             (app.eliminar_conexion ctrl h).2.1.conexiones =
               app.conexiones.filter (fun p => p.1 != h)))) ∧
    ((app.eliminar_conexion ctrl h).1 = .ok true →
       ((app.eliminar_conexion ctrl h).2.1.eliminar_conexion ctrl h).1 = .ok false) := by
  refine ⟨?_, ?_, ?_⟩
  · intro hlk
    unfold SDNApplication.eliminar_conexion
    simp [hlk]
  · intro cx alumno hlk halm
    constructor
    · intro hgap
      have hgap' : gapScan (normalizeMac alumno.mac) (get_devices ctrl) = .ok none := hgap
      unfold SDNApplication.eliminar_conexion
      simp only [hlk, halm, get_attachment_point, hgap']
      refine ⟨?_, ?_⟩ <;> trivial
    · intro ap hgap
      have hgap' : gapScan (normalizeMac alumno.mac) (get_devices ctrl) = .ok (some ap) := hgap
      constructor
      · intro hdel
        unfold SDNApplication.eliminar_conexion
        simp only [hlk, halm, get_attachment_point, hgap', delete_route] at hdel ⊢
        simp only [hdel] at *
        simp [hdel]
      · intro hdel
        unfold SDNApplication.eliminar_conexion
        simp only [hlk, halm, get_attachment_point, hgap', delete_route] at hdel ⊢
        simp [hdel]
  · intro hsucc
    cases hlk : app.conexiones.lookup h with
    | none =>
      unfold SDNApplication.eliminar_conexion at hsucc
      simp [hlk] at hsucc
    | some cx =>
      cases halm : app.alumnos.lookup cx.codigo_alumno with
      | none =>
        unfold SDNApplication.eliminar_conexion at hsucc
        simp [hlk, halm] at hsucc
      | some alumno =>
        cases hgap : gapScan (normalizeMac alumno.mac) (get_devices ctrl) with
        | error e =>
          unfold SDNApplication.eliminar_conexion at hsucc
          simp only [hlk, halm, get_attachment_point, hgap] at hsucc
          simp at hsucc
        | ok src =>
          rcases src with _ | ap
          · unfold SDNApplication.eliminar_conexion at hsucc
            simp only [hlk, halm, get_attachment_point, hgap] at hsucc
            simp at hsucc
          · by_cases hdel : ([h ++ "_arp_request", h ++ "_arp_reply", h ++ "_outbound",
              h ++ "_inbound"].all (fun n => delete_flow ctrl ap.1 n)) = true
            · unfold SDNApplication.eliminar_conexion
              simp only [hlk, halm, get_attachment_point, hgap, delete_route, hdel]
              simp [lookup_filter_ne_self]
            · rw [Bool.not_eq_true] at hdel
              unfold SDNApplication.eliminar_conexion at hsucc
              simp only [hlk, halm, get_attachment_point, hgap, delete_route, hdel] at hsucc
              simp at hsucc

/-- The sample state after a successful create of `conn_0001`. -/
def appConn : SDNApplication :=
  { app1 with
    conexiones := [("conn_0001", ⟨"conn_0001", "20211049", "Srv1", "ssh", true⟩)],
    connection_counter := 2 }

/-- Claim C8, witness: on the sample state, the first destroy of
`conn_0001` succeeds, the second fails, and destroying an unknown handler
fails. -/
theorem eliminar_conexion_behaviour_witness :
    (appConn.eliminar_conexion okCtrl "conn_0001").1 = .ok true ∧
    ((appConn.eliminar_conexion okCtrl "conn_0001").2.1.eliminar_conexion
        okCtrl "conn_0001").1 = .ok false ∧
    (appConn.eliminar_conexion okCtrl "bogus").1 = .ok false :=
  ⟨by rfl,
   (eliminar_conexion_behaviour appConn okCtrl "conn_0001").2.2 (by rfl),
   by rw [(eliminar_conexion_behaviour appConn okCtrl "bogus").1 (by rfl)]⟩

/-! ## Claim C9 — failures as values versus uncaught exceptions -/

theorem lookup_mem {β : Type} (k : String) :
    ∀ (l : List (String × β)) (v : β), l.lookup k = some v → (k, v) ∈ l := by
  intro l
  induction l with
  | nil => intro v h; simp [List.lookup] at h
  | cons a t ih =>
    obtain ⟨a1, a2⟩ := a
    intro v h
    by_cases hk : (k == a1) = true
    · have hk1 : k = a1 := beq_iff_eq.mp hk
      simp only [List.lookup, hk] at h
      injection h with hv
      subst hk1; subst hv
      exact List.mem_cons_self _ _
    · have hkf : (k == a1) = false := Bool.not_eq_true _ |>.mp hk
      simp only [List.lookup, hkf] at h
      exact List.mem_cons_of_mem _ (ih v h)

/-- When no device record reports a present-but-empty hardware-address
list, the inventory scan cannot raise. -/
theorem gapScan_no_empty_mac (m : String) :
    ∀ l : List Device, (∀ d ∈ l, d.mac ≠ some []) → ∃ y, gapScan m l = .ok y := by
  intro l
  induction l with
  | nil => intro _; exact ⟨none, rfl⟩
  | cons d t ih =>
    obtain ⟨dmac, dap⟩ := d
    intro hm
    have htail : ∀ d ∈ t, d.mac ≠ some [] := fun d hd => hm d (by simp [hd])
    rcases dmac with _ | ⟨_ | ⟨m0, ms⟩⟩
    · rw [gapScan_cons_none]; exact ih htail
    · exact (hm ⟨some [], dap⟩ (by simp) rfl).elim
    · rw [gapScan_cons_some]
      by_cases h1 : (normalizeMac m0 == m) = true
      · rw [if_pos h1]
        rcases dap with _ | ⟨_ | ⟨ap, aps⟩⟩
        · exact ih htail
        · exact ih htail
        · exact ⟨some (ap.switchDPID, ap.port), rfl⟩
      · rw [if_neg h1]; exact ih htail

theorem build_route_no_raise (ctrl : Controller) (al : Alumno) (sv : Servidor)
    (se : Servicio) (handler : String)
    (hmac : ∀ d ∈ get_devices ctrl, d.mac ≠ some []) :
    ∃ b, (build_route ctrl al sv se handler).1 = .ok b := by
  obtain ⟨y1, h1⟩ := gapScan_no_empty_mac (normalizeMac al.mac) (get_devices ctrl) hmac
  obtain ⟨y2, h2⟩ := gapScan_no_empty_mac (normalizeMac "dummy") (get_devices ctrl) hmac
  unfold build_route get_attachment_point
  simp only [h1, h2]
  rcases y1 with _ | sap
  · exact ⟨false, rfl⟩
  · rcases y2 with _ | dap
    · exact ⟨_, rfl⟩
    · by_cases hdp : (sap.1 == dap.1) = true
      · simp only [hdp, if_true]
        exact ⟨_, rfl⟩
      · simp only [hdp, Bool.false_eq_true, if_false]
        exact ⟨_, rfl⟩

/-- Claim C9, counterexample: a controller response holding a device record
whose hardware-address list is present but empty makes both Create and
Destroy raise an uncaught `IndexError` (from `device['mac'][0]`) instead of
returning a failure value. -/
theorem uncaught_exception_counterexample :
    (∃ d ∈ get_devices crashCtrl, d.mac = some []) ∧
    (app1.crear_conexion crashCtrl "20211049" "Srv1" "ssh").1 = .error .indexError ∧
    (appConn.eliminar_conexion crashCtrl "conn_0001").1 = .error .indexError :=
  ⟨⟨⟨some [], none⟩, by decide, rfl⟩, by rfl, by rfl⟩

/-- Claim C9 (amended): transport errors and non-success statuses are
caught inside the controller client (every `Controller` environment,
including failing ones, is covered by this statement), and device records
missing the hardware-address key are skipped — under the proviso that no
device record reports a present-but-empty hardware-address list (and, for
Destroy, that the stored connection's principal is still registered),
Create and Destroy always return an explicit value and never raise. -/
theorem controller_failures_are_values (app : SDNApplication) (ctrl : Controller)
    (a srv svc hdl : String)
    (hmac : ∀ d ∈ get_devices ctrl, d.mac ≠ some [])
    (halm : ∀ p ∈ app.conexiones, (app.alumnos.lookup p.2.codigo_alumno).isSome = true) :
    (∃ r, (app.crear_conexion ctrl a srv svc).1 = .ok r) ∧
    (∃ b, (app.eliminar_conexion ctrl hdl).1 = .ok b) := by
  constructor
  · cases hal : app.alumnos.lookup a with
    | none => exact ⟨none, by unfold SDNApplication.crear_conexion; simp [hal]⟩
    | some alumno0 =>
      cases hsv : app.servidores.lookup srv with
      | none => exact ⟨none, by unfold SDNApplication.crear_conexion; simp [hal, hsv]⟩
      | some servidor0 =>
        cases hse : servidor0.obtener_servicio svc with
        | none => exact ⟨none, by unfold SDNApplication.crear_conexion; simp [hal, hsv, hse]⟩
        | some servicio0 =>
          by_cases hv : app.verificar_autorizacion a srv svc = true
          · obtain ⟨b, hbr⟩ := build_route_no_raise ctrl alumno0 servidor0 servicio0
              (mkHandler app.connection_counter) hmac
            cases hb : build_route ctrl alumno0 servidor0 servicio0
              (mkHandler app.connection_counter) with
            | mk r t =>
              rw [hb] at hbr
              simp at hbr
              subst hbr
              unfold SDNApplication.crear_conexion
              simp only [hal, hsv, hse, hv, if_true, hb]
              cases b
              · exact ⟨none, rfl⟩
              · exact ⟨some (mkHandler app.connection_counter), rfl⟩
          · rw [Bool.not_eq_true] at hv
            exact ⟨none, by unfold SDNApplication.crear_conexion; simp [hal, hsv, hse, hv]⟩
  · cases hlk : app.conexiones.lookup hdl with
    | none => exact ⟨false, by unfold SDNApplication.eliminar_conexion; simp [hlk]⟩
    | some cx =>
      have hmem : (hdl, cx) ∈ app.conexiones := lookup_mem hdl app.conexiones cx hlk
      have hsome := halm (hdl, cx) hmem
      cases halk : app.alumnos.lookup cx.codigo_alumno with
      | none => rw [halk] at hsome; simp at hsome
      | some al =>
        obtain ⟨y, hy⟩ := gapScan_no_empty_mac (normalizeMac al.mac) (get_devices ctrl) hmac
        unfold SDNApplication.eliminar_conexion
        simp only [hlk, halk, get_attachment_point, hy]
        rcases y with _ | ap
        · exact ⟨false, rfl⟩
        · by_cases hdel : ([hdl ++ "_arp_request", hdl ++ "_arp_reply", hdl ++ "_outbound",
            hdl ++ "_inbound"].all (fun n => delete_flow ctrl ap.1 n)) = true
          · simp only [delete_route, hdel, if_true]
            exact ⟨true, rfl⟩
          · rw [Bool.not_eq_true] at hdel
            simp only [delete_route, hdel, Bool.false_eq_true, if_false]
            exact ⟨false, rfl⟩

/-- Claim C9, witness: with a well-formed inventory, create and destroy
both return plain values on the sample state. -/
theorem controller_failures_are_values_witness :
    (∃ r, (app1.crear_conexion okCtrl "20211049" "Srv1" "ssh").1 = .ok r) ∧
    (∃ b, (app1.eliminar_conexion okCtrl "zzz").1 = .ok b) :=
  controller_failures_are_values app1 okCtrl "20211049" "Srv1" "ssh" "zzz"
    (by decide) (by decide)

/-! ## Claims C6 and C10 — handler uniqueness and counter monotonicity -/

theorem crear_counter (app : SDNApplication) (ctrl : Controller) (a srv svc : String) :
    (app.crear_conexion ctrl a srv svc).2.1.connection_counter = app.connection_counter ∨
    (app.crear_conexion ctrl a srv svc).2.1.connection_counter = app.connection_counter + 1 := by
  cases hal : app.alumnos.lookup a with
  | none => left; unfold SDNApplication.crear_conexion; simp [hal]
  | some alumno0 =>
    cases hsv : app.servidores.lookup srv with
    | none => left; unfold SDNApplication.crear_conexion; simp [hal, hsv]
    | some servidor0 =>
      cases hse : servidor0.obtener_servicio svc with
      | none => left; unfold SDNApplication.crear_conexion; simp [hal, hsv, hse]
      | some servicio0 =>
        by_cases hv : app.verificar_autorizacion a srv svc = true
        · right
          unfold SDNApplication.crear_conexion
          simp only [hal, hsv, hse, hv, if_true]
          cases hb : build_route ctrl alumno0 servidor0 servicio0
            (mkHandler app.connection_counter) with
          | mk r t =>
            cases r with
            | error e => rfl
            | ok b => cases b <;> rfl
        · left
          rw [Bool.not_eq_true] at hv
          unfold SDNApplication.crear_conexion
          simp [hal, hsv, hse, hv]

theorem crear_counter_authorized (app : SDNApplication) (ctrl : Controller)
    (a srv svc : String) (alumno0 : Alumno) (servidor0 : Servidor) (servicio0 : Servicio)
    (hal : app.alumnos.lookup a = some alumno0)
    (hsv : app.servidores.lookup srv = some servidor0)
    (hse : servidor0.obtener_servicio svc = some servicio0)
    (hv : app.verificar_autorizacion a srv svc = true) :
    (app.crear_conexion ctrl a srv svc).2.1.connection_counter =
      app.connection_counter + 1 := by
  unfold SDNApplication.crear_conexion
  simp only [hal, hsv, hse, hv, if_true]
  cases hb : build_route ctrl alumno0 servidor0 servicio0
    (mkHandler app.connection_counter) with
  | mk r t =>
    cases r with
    | error e => rfl
    | ok b => cases b <;> rfl

theorem eliminar_counter (app : SDNApplication) (ctrl : Controller) (h : String) :
    (app.eliminar_conexion ctrl h).2.1.connection_counter = app.connection_counter := by
  cases hlk : app.conexiones.lookup h with
  | none => unfold SDNApplication.eliminar_conexion; simp [hlk]
  | some cx =>
    cases halk : app.alumnos.lookup cx.codigo_alumno with
    | none => unfold SDNApplication.eliminar_conexion; simp [hlk, halk]
    | some al =>
      unfold SDNApplication.eliminar_conexion
      cases hy : gapScan (normalizeMac al.mac) (get_devices ctrl) with
      | error e => simp only [hlk, halk, get_attachment_point, hy]
      | ok y =>
        simp only [hlk, halk, get_attachment_point, hy]
        rcases y with _ | ap
        · rfl
        · by_cases hdel : ([h ++ "_arp_request", h ++ "_arp_reply", h ++ "_outbound",
            h ++ "_inbound"].all (fun n => delete_flow ctrl ap.1 n)) = true
          · simp only [delete_route, hdel, if_true]
          · rw [Bool.not_eq_true] at hdel
            simp only [delete_route, hdel, Bool.false_eq_true, if_false]

theorem crear_success (app : SDNApplication) (ctrl : Controller) (a srv svc h : String)
    (hok : (app.crear_conexion ctrl a srv svc).1 = .ok (some h)) :
    h = mkHandler app.connection_counter ∧
    (app.crear_conexion ctrl a srv svc).2.1.connection_counter =
      app.connection_counter + 1 ∧
    (app.crear_conexion ctrl a srv svc).2.1.conexiones =
      dictInsert app.conexiones (mkHandler app.connection_counter)
        (Conexion.mk (mkHandler app.connection_counter) a srv svc true) := by
  cases hal : app.alumnos.lookup a with
  | none => unfold SDNApplication.crear_conexion at hok; simp [hal] at hok
  | some alumno0 =>
    cases hsv : app.servidores.lookup srv with
    | none => unfold SDNApplication.crear_conexion at hok; simp [hal, hsv] at hok
    | some servidor0 =>
      cases hse : servidor0.obtener_servicio svc with
      | none => unfold SDNApplication.crear_conexion at hok; simp [hal, hsv, hse] at hok
      | some servicio0 =>
        by_cases hv : app.verificar_autorizacion a srv svc = true
        · unfold SDNApplication.crear_conexion at hok ⊢
          simp only [hal, hsv, hse, hv, if_true] at hok ⊢
          cases hb : build_route ctrl alumno0 servidor0 servicio0
            (mkHandler app.connection_counter) with
          | mk r t =>
            rw [hb] at hok
            cases r with
            | error e => simp at hok
            | ok b =>
              cases b
              · simp at hok
              · simp only [hb]
                refine ⟨?_, by trivial, by trivial⟩
                have : some (mkHandler app.connection_counter) = some h := by
                  exact Except.ok.inj hok
                injection this with hh
                exact hh.symm
        · rw [Bool.not_eq_true] at hv
          unfold SDNApplication.crear_conexion at hok
          simp [hal, hsv, hse, hv] at hok

/-- Every stored connection's handler was minted from an index below the
current counter. -/
def goodApp (app : SDNApplication) : Prop :=
  ∀ p ∈ app.conexiones, ∃ k, k < app.connection_counter ∧ p.1 = mkHandler k

theorem dictInsert_mem (q : String × Conexion) (l : List (String × Conexion))
    (k : String) (v : Conexion) (hq : q ∈ dictInsert l k v) : q ∈ l ∨ q.1 = k := by
  unfold dictInsert at hq
  by_cases hs : (List.lookup k l).isSome = true
  · simp only [hs, if_true] at hq
    obtain ⟨p, hp, hfq⟩ := List.mem_map.mp hq
    by_cases hpk : (p.1 == k) = true
    · right; rw [← hfq]; simp [hpk]
    · left
      rw [← hfq]
      simp only [hpk, Bool.false_eq_true, if_false]
      exact hp
  · simp only [Bool.not_eq_true] at hs
    simp only [hs, Bool.false_eq_true, if_false] at hq
    rcases List.mem_append.mp hq with h | h
    · exact Or.inl h
    · right
      simp at h
      rw [h]

theorem crear_preserves_good (app : SDNApplication) (ctrl : Controller)
    (a srv svc : String) (hg : goodApp app) :
    goodApp (app.crear_conexion ctrl a srv svc).2.1 := by
  cases hal : app.alumnos.lookup a with
  | none =>
    unfold SDNApplication.crear_conexion
    simp only [hal]
    exact hg
  | some alumno0 =>
    cases hsv : app.servidores.lookup srv with
    | none =>
      unfold SDNApplication.crear_conexion
      simp only [hal, hsv]
      exact hg
    | some servidor0 =>
      cases hse : servidor0.obtener_servicio svc with
      | none =>
        unfold SDNApplication.crear_conexion
        simp only [hal, hsv, hse]
        exact hg
      | some servicio0 =>
        by_cases hv : app.verificar_autorizacion a srv svc = true
        · unfold SDNApplication.crear_conexion
          simp only [hal, hsv, hse, hv, if_true]
          cases hb : build_route ctrl alumno0 servidor0 servicio0
            (mkHandler app.connection_counter) with
          | mk r t =>
            cases r with
            | error e =>
              intro p hp
              obtain ⟨k, hk, hkm⟩ := hg p hp
              exact ⟨k, Nat.lt_succ_of_lt hk, hkm⟩
            | ok b =>
              cases b
              · intro p hp
                obtain ⟨k, hk, hkm⟩ := hg p hp
                exact ⟨k, Nat.lt_succ_of_lt hk, hkm⟩
              · intro p hp
                rcases dictInsert_mem p app.conexiones (mkHandler app.connection_counter)
                    (Conexion.mk (mkHandler app.connection_counter) a srv svc true) hp with
                  hmem | hk
                · obtain ⟨k, hk, hkm⟩ := hg p hmem
                  exact ⟨k, Nat.lt_succ_of_lt hk, hkm⟩
                · exact ⟨app.connection_counter, Nat.lt_succ_self _, hk⟩
        · rw [Bool.not_eq_true] at hv
          unfold SDNApplication.crear_conexion
          simp only [hal, hsv, hse, hv, Bool.false_eq_true, if_false]
          exact hg

theorem eliminar_preserves_good (app : SDNApplication) (ctrl : Controller)
    (h : String) (hg : goodApp app) :
    goodApp (app.eliminar_conexion ctrl h).2.1 := by
  cases hlk : app.conexiones.lookup h with
  | none =>
    unfold SDNApplication.eliminar_conexion
    simp only [hlk]
    exact hg
  | some cx =>
    cases halk : app.alumnos.lookup cx.codigo_alumno with
    | none =>
      unfold SDNApplication.eliminar_conexion
      simp only [hlk, halk]
      exact hg
    | some al =>
      unfold SDNApplication.eliminar_conexion
      cases hy : gapScan (normalizeMac al.mac) (get_devices ctrl) with
      | error e =>
        simp only [hlk, halk, get_attachment_point, hy]
        exact hg
      | ok y =>
        simp only [hlk, halk, get_attachment_point, hy]
        rcases y with _ | ap
        · exact hg
        · by_cases hdel : ([h ++ "_arp_request", h ++ "_arp_reply", h ++ "_outbound",
            h ++ "_inbound"].all (fun n => delete_flow ctrl ap.1 n)) = true
          · simp only [delete_route, hdel, if_true]
            intro p hp
            exact hg p (List.mem_of_mem_filter hp)
          · rw [Bool.not_eq_true] at hdel
            simp only [delete_route, hdel, Bool.false_eq_true, if_false]
            exact hg

theorem applyOp_counter_mono (app : SDNApplication) (op : Op) :
    app.connection_counter ≤ (applyOp app op).1.connection_counter := by
  cases op with
  | create ctrl a srv svc =>
    show app.connection_counter ≤ (app.crear_conexion ctrl a srv svc).2.1.connection_counter
    rcases crear_counter app ctrl a srv svc with h | h <;> omega
  | destroy ctrl h =>
    show app.connection_counter ≤ (app.eliminar_conexion ctrl h).2.1.connection_counter
    rw [eliminar_counter]

theorem applyOp_good (app : SDNApplication) (op : Op) (hg : goodApp app) :
    goodApp (applyOp app op).1 := by
  cases op with
  | create ctrl a srv svc => exact crear_preserves_good app ctrl a srv svc hg
  | destroy ctrl h => exact eliminar_preserves_good app ctrl h hg

theorem applyOp_issued (app : SDNApplication) (op : Op) (h : String)
    (hres : (applyOp app op).2 = some h) :
    h = mkHandler app.connection_counter ∧
    (applyOp app op).1.connection_counter = app.connection_counter + 1 := by
  cases op with
  | create ctrl a srv svc =>
    have hok : (app.crear_conexion ctrl a srv svc).1 = .ok (some h) := by
      revert hres
      show (match (app.crear_conexion ctrl a srv svc).1 with
        | .ok (some h0) => some h0 | _ => none) = some h → _
      cases hr : (app.crear_conexion ctrl a srv svc).1 with
      | error e => intro hh; simp at hh
      | ok o =>
        rcases o with _ | h0
        · intro hh; simp at hh
        · intro hh
          simp at hh
          rw [hh]
    obtain ⟨h1, h2, _⟩ := crear_success app ctrl a srv svc h hok
    exact ⟨h1, h2⟩
  | destroy ctrl hd => simp [applyOp] at hres

theorem runApp_counter_mono (ops : List Op) :
    ∀ app : SDNApplication,
      app.connection_counter ≤ (runApp app ops).connection_counter := by
  induction ops with
  | nil => intro app; exact le_refl _
  | cons op ops ih =>
    intro app
    exact le_trans (applyOp_counter_mono app op) (ih (applyOp app op).1)

theorem runApp_good (ops : List Op) :
    ∀ app : SDNApplication, goodApp app → goodApp (runApp app ops) := by
  induction ops with
  | nil => intro app hg; exact hg
  | cons op ops ih => intro app hg; exact ih (applyOp app op).1 (applyOp_good app op hg)

theorem runIssued_bound (ops : List Op) :
    ∀ (app : SDNApplication) (h : String), h ∈ runIssued app ops →
      ∃ k, app.connection_counter ≤ k ∧ h = mkHandler k := by
  induction ops with
  | nil => intro app h hh; simp [runIssued] at hh
  | cons op ops ih =>
    intro app h hh
    unfold runIssued at hh
    rcases List.mem_append.mp hh with hhd | htl
    · cases hres : (applyOp app op).2 with
      | none => rw [hres] at hhd; simp at hhd
      | some h0 =>
        rw [hres] at hhd
        simp at hhd
        obtain ⟨h1, _⟩ := applyOp_issued app op h0 hres
        exact ⟨app.connection_counter, le_refl _, by rw [hhd, h1]⟩
    · obtain ⟨k, hk, hkm⟩ := ih (applyOp app op).1 h htl
      exact ⟨k, le_trans (applyOp_counter_mono app op) hk, hkm⟩

theorem runIssued_pairwise (ops : List Op) :
    ∀ app : SDNApplication, (runIssued app ops).Pairwise (· ≠ ·) := by
  induction ops with
  | nil => intro app; simp [runIssued]
  | cons op ops ih =>
    intro app
    unfold runIssued
    cases hres : (applyOp app op).2 with
    | none => simpa using ih (applyOp app op).1
    | some h0 =>
      simp only [Option.toList_some, List.singleton_append]
      refine List.Pairwise.cons ?_ (ih (applyOp app op).1)
      intro h2 hh2 heq
      obtain ⟨h1, hcnt⟩ := applyOp_issued app op h0 hres
      obtain ⟨k, hk, hkm⟩ := runIssued_bound ops (applyOp app op).1 h2 hh2
      rw [hcnt] at hk
      rw [h1, hkm] at heq
      have := mkHandler_injective heq
      omega

/-- Claim C6: starting from a state whose stored handlers were all minted
below the current counter (in particular the initial empty state), the
handlers returned by the successful creates of any operation sequence are
pairwise distinct, and across any split of the sequence no handler issued
later coincides with a handler present in the connection table at the
split point — hence a destroyed connection's handler is never issued
again. -/
theorem handlers_unique_never_reused (app : SDNApplication) (ops l₁ l₂ : List Op)
    (hgood : goodApp app) (hsplit : ops = l₁ ++ l₂) :
    (runIssued app ops).Pairwise (· ≠ ·) ∧
    ∀ h ∈ runIssued (runApp app l₁) l₂,
      h ∉ (runApp app l₁).conexiones.map Prod.fst := by
  subst hsplit
  refine ⟨runIssued_pairwise (l₁ ++ l₂) app, ?_⟩
  intro h hh hmem
  obtain ⟨k, hk, hkm⟩ := runIssued_bound l₂ (runApp app l₁) h hh
  obtain ⟨p, hp, hp1⟩ := List.mem_map.mp hmem
  obtain ⟨j, hj, hjm⟩ := runApp_good l₁ app hgood p hp
  rw [hp1, hkm] at hjm
  have := mkHandler_injective hjm
  omega

/-- Claim C10: once the authorization check passes, the handler counter is
incremented no matter how create finishes (so a create that fails later
still consumes its handler value); the counter never decreases under any
operation; and the consumed handler is never issued by any later operation
sequence. -/
theorem counter_consumed_on_failure (app : SDNApplication) (ctrl : Controller)
    (a srv svc : String) (alumno0 : Alumno) (servidor0 : Servidor) (servicio0 : Servicio)
    (hal : app.alumnos.lookup a = some alumno0)
    (hsv : app.servidores.lookup srv = some servidor0)
    (hse : servidor0.obtener_servicio svc = some servicio0)
    (hv : app.verificar_autorizacion a srv svc = true) :
    (app.crear_conexion ctrl a srv svc).2.1.connection_counter =
      app.connection_counter + 1 ∧
    (∀ op, app.connection_counter ≤ (applyOp app op).1.connection_counter) ∧
    (∀ ops, mkHandler app.connection_counter ∉
       runIssued (app.crear_conexion ctrl a srv svc).2.1 ops) := by
  have h1 := crear_counter_authorized app ctrl a srv svc alumno0 servidor0 servicio0
    hal hsv hse hv
  refine ⟨h1, fun op => applyOp_counter_mono app op, ?_⟩
  intro ops hmem
  obtain ⟨k, hk, hkm⟩ := runIssued_bound ops _ _ hmem
  rw [h1] at hk
  have := mkHandler_injective hkm
  omega

/-- A sample run: create, destroy the created connection, create again. -/
def opsW : List Op :=
  [.create okCtrl "20211049" "Srv1" "ssh", .destroy okCtrl "conn_0001",
   .create okCtrl "20211049" "Srv1" "ssh"]

/-- Claim C6, witness: on the sample run the issued handlers are pairwise
distinct and the handler destroyed after the first create is not
reissued. -/
theorem handlers_unique_never_reused_witness :
    (runIssued app1 opsW).Pairwise (· ≠ ·) ∧
    ∀ h ∈ runIssued (runApp app1 (List.take 2 opsW)) (List.drop 2 opsW),
      h ∉ (runApp app1 (List.take 2 opsW)).conexiones.map Prod.fst :=
  handlers_unique_never_reused app1 opsW (List.take 2 opsW) (List.drop 2 opsW)
    (by intro p hp; simp [app1] at hp) (by rfl)

/-- Claim C10, witness: on the sample state with an empty device inventory
the authorized create fails, yet the counter advances and the consumed
handler can never be issued later. -/
theorem counter_consumed_on_failure_witness :
    (app1.crear_conexion emptyCtrl "20211049" "Srv1" "ssh").1 = .ok none ∧
    (app1.crear_conexion emptyCtrl "20211049" "Srv1" "ssh").2.1.connection_counter =
      app1.connection_counter + 1 ∧
    (∀ op, app1.connection_counter ≤ (applyOp app1 op).1.connection_counter) ∧
    (∀ ops, mkHandler app1.connection_counter ∉
       runIssued (app1.crear_conexion emptyCtrl "20211049" "Srv1" "ssh").2.1 ops) :=
  ⟨by rfl,
   counter_consumed_on_failure app1 emptyCtrl "20211049" "Srv1" "ssh"
     alumnoA srv1 servSsh (by rfl) (by rfl) (by rfl) (by rfl)⟩

end SDN
